import Mathlib

/-!
# Verification of the recommendation generator (`generator.go`)

A shallow embedding of `New`, `Tracklist`, `LimitedTracklist`, `toMap` and
`filter`, and of the three fetches of the adapter `spotify/spotify.go`, followed
by theorems about them.

Conventions of the embedding:

* a Go slice is `Slice α`: `Slice.nil` is the nil slice, `Slice.mk xs` an
  allocated slice with elements `xs` (possibly none);
* a Go `map[string]Artist` is `GoMap`: `GoMap.nil` is the nil map,
  `GoMap.alloc m` an allocated map with entries `m`;
* a run-time panic is the `none` of `Option`;
* a Go `error` is `Option Error` (`none` is the nil error);
* collaborators are state transformers over a world state `σ`, and the two
  generator methods return the list of collaborator calls they made.
-/

namespace Refind

/-! ## Go values -/

/-- Go slice: the nil slice, or an allocated slice with the given elements. -/
inductive Slice (α : Type) where
  | nil : Slice α
  | mk (xs : List α) : Slice α
  deriving DecidableEq, Repr

namespace Slice

/-- Elements of a slice, as `range` visits them. -/
def toList {α : Type} : Slice α → List α
  | Slice.nil => []
  | Slice.mk xs => xs

/-- Go `len(s)`. -/
def len {α : Type} (s : Slice α) : Nat := s.toList.length

/-- Go `append(s, x)`: the result is always allocated. -/
def append {α : Type} (s : Slice α) (x : α) : Slice α := Slice.mk (s.toList ++ [x])

end Slice

/-- Modelled from the spec: the `Artist` type declaration is not among the
sources; it has an identifier and a display name (fields `ID` and `Name` in
the tests). -/
structure Artist where
  ID : String
  Name : String
  deriving DecidableEq, Repr

/-- Modelled from the spec: the `Track` type declaration is not among the
sources; it has an identifier, a display name and an embedded owning artist
(fields `ID`, `Name` and `Artist` in the tests). -/
structure Track where
  ID : String
  Name : String
  Artist : Artist
  deriving DecidableEq, Repr

/-- Go zero value of `Artist`. -/
def Artist.zero : Artist := ⟨"", ""⟩

/-- Go errors: the package-level sentinels, errors created elsewhere
(`errors.New` in a collaborator) and `errors.Wrap cause msg`. -/
inductive Error where
  | errNilGen : Error
  | errRangeInvalid : Error
  | errTrackSeed : Error
  | errArtistSeed : Error
  | other (msg : String) : Error
  | wrap (cause : Error) (msg : String) : Error
  deriving DecidableEq, Repr

/-- The `errors.Cause` of an error: the innermost wrapped error. -/
def Error.Cause : Error → Error
  | Error.wrap c _ => c.Cause
  | e => e

/-- Modelled from the spec: the kind of entity a seed was derived from. -/
inductive SeedKind where
  | track : SeedKind
  | artist : SeedKind
  deriving DecidableEq, Repr

/-- Modelled from the spec: the `Seed` type is not among the sources; a seed
wraps the identifier and the kind of the entity it was derived from. -/
structure Seed where
  kind : SeedKind
  id : String
  deriving DecidableEq, Repr

/-- Modelled from the spec: `Track.Seed` is not among the sources; it succeeds
only if the identifier is non-empty and fails with the track seed error
otherwise. -/
def Track.Seed (t : Track) : Except Error Seed :=
  if t.ID = "" then Except.error Error.errTrackSeed
  else Except.ok ⟨SeedKind.track, t.ID⟩

/-- Modelled from the spec: `Artist.Seed` is not among the sources; it succeeds
only if the identifier is non-empty and fails with the artist seed error
otherwise. -/
def Artist.Seed (a : Artist) : Except Error Seed :=
  if a.ID = "" then Except.error Error.errArtistSeed
  else Except.ok ⟨SeedKind.artist, a.ID⟩

/-! ## Go maps -/

/-- Go `map[string]Artist`: the nil map, or an allocated map. -/
inductive GoMap where
  | nil : GoMap
  | alloc (m : AList (fun _ : String => Artist)) : GoMap

namespace GoMap

/-- Go `make(map[string]Artist)`. -/
def make : GoMap := GoMap.alloc ∅

/-- Go `len(m)`: number of entries; `0` for the nil map. -/
def len : GoMap → Nat
  | GoMap.nil => 0
  | GoMap.alloc m => m.entries.length

/-- Go `v, ok := m[k]` with `ok` folded into the option; reading the nil map
finds nothing. -/
def get : GoMap → String → Option Artist
  | GoMap.nil, _ => none
  | GoMap.alloc m, k => m.lookup k

/-- Go `m[k] = v`; assignment to an entry of the nil map panics. -/
def set : GoMap → String → Artist → Option GoMap
  | GoMap.nil, _, _ => none
  | GoMap.alloc m, k, v => some (GoMap.alloc (m.insert k v))

/-- Keys of a map. -/
def keys : GoMap → List String
  | GoMap.nil => []
  | GoMap.alloc m => m.keys

end GoMap

/-! ## `toMap` and `filter` -/

/-- Loop of `toMap`: `for _, p := range prev { curr[p.Name] = p }`. -/
def toMapLoop : List Artist → GoMap → Option GoMap
  | [], curr => some curr
  | p :: ps, curr =>
    match curr.set p.Name p with
    | none => none
    | some curr1 => toMapLoop ps curr1

/-- Embedding of `toMap`; `none` would be a run-time panic, `some GoMap.nil` is
the nil map returned for a slice of length zero. -/
def toMap (prev : Slice Artist) : Option GoMap :=
  if prev.len = 0 then some GoMap.nil
  else toMapLoop prev.toList GoMap.make

/-- Loop of `filter`: for each `p`, when `rmv[p.Artist.Name]` is not found,
append `p` to `curr` and store `p.Artist` under that name. -/
def filterLoop : List Track → Slice Track → GoMap → Option (Slice Track × GoMap)
  | [], curr, rmv => some (curr, rmv)
  | p :: ps, curr, rmv =>
    match rmv.get p.Artist.Name with
    | some _ => filterLoop ps curr rmv
    | none =>
      match rmv.set p.Artist.Name p.Artist with
      | none => none
      | some rmv1 => filterLoop ps (curr.append p) rmv1

/-- Embedding of `filter`: the returned slice together with the final contents
of the map `rmv`, which the function updates in place; `none` would be a
run-time panic. -/
def filter (prev : Slice Track) (rmv : GoMap) : Option (Slice Track × GoMap) :=
  if prev.len = 0 then some (Slice.nil, rmv)
  else if rmv.len = 0 then some (prev, rmv)
  else filterLoop prev.toList Slice.nil rmv

/-! ## The generator and its collaborators -/

/-- What a collaborator method returns: a slice and an error, as in Go. -/
abbrev Ret (α : Type) : Type := Slice α × Option Error

/-- Interface `MusicService`, over a world state `σ` that each call may read
and change. -/
structure MusicService (σ : Type) where
  TopArtists : σ → Ret Artist × σ
  RecentTracks : σ → Ret Track × σ

/-- Interface `Recommender`. -/
structure Recommender (σ : Type) where
  Recommendations : Int → Slice Seed → σ → Ret Track × σ

/-- A collaborator call, with its arguments and what it returned. -/
inductive Call where
  | RecentTracks (ret : Ret Track) : Call
  | TopArtists (ret : Ret Artist) : Call
  | Recommendations (n : Int) (sds : Slice Seed) (ret : Ret Track) : Call
  deriving DecidableEq, Repr

/-- The struct `generator`; an interface value may be nil (`none`). The field
`rec` of the source is spelled `rec_` here. -/
structure generator (σ : Type) where
  serv : Option (MusicService σ)
  rec_ : Option (Recommender σ)

/-- Embedding of `New`: the returned pointer (`none` is nil) and error. -/
def New {σ : Type} (serv : Option (MusicService σ)) (rec_ : Option (Recommender σ)) :
    Option (generator σ) × Option Error :=
  if serv.isNone || rec_.isNone then (none, some Error.errNilGen)
  else (some ⟨serv, rec_⟩, none)

/-- Result of a generator method: the returned pair, the world state it leaves
and the collaborator calls it made, in order. -/
structure Outcome (σ : Type) where
  ret : Ret Track
  state : σ
  calls : List Call

/-- Seed loop of `Tracklist`: stops at the first track without a seed. -/
def trackSeeds : List Track → Slice Seed → Except Error (Slice Seed)
  | [], sds => Except.ok sds
  | t :: ts, sds =>
    match t.Seed with
    | Except.error err => Except.error err
    | Except.ok sd => trackSeeds ts (sds.append sd)

/-- Seed loop of `LimitedTracklist`: stops at the first artist without a seed. -/
def artistSeeds : List Artist → Slice Seed → Except Error (Slice Seed)
  | [], sds => Except.ok sds
  | t :: ts, sds =>
    match t.Seed with
    | Except.error err => Except.error err
    | Except.ok sd => artistSeeds ts (sds.append sd)

/-- Embedding of `generator.Tracklist`; `none` is a run-time panic (a method
call on a nil interface, or a write to a nil map). -/
def generator.Tracklist {σ : Type} (g : generator σ) (n : Int) (s : σ) : Option (Outcome σ) :=
  if n ≤ 0 then some ⟨(Slice.nil, some Error.errRangeInvalid), s, []⟩
  else
    match g.serv with
    | none => none
    | some serv =>
      let r1 := serv.RecentTracks s
      let c1 := Call.RecentTracks r1.1
      match r1.1.2 with
      | some err =>
        some ⟨(Slice.nil, some (Error.wrap err "cannot fetch recent tracks")), r1.2, [c1]⟩
      | none =>
        match trackSeeds r1.1.1.toList Slice.nil with
        | Except.error err =>
          some ⟨(Slice.nil, some (Error.wrap err "one or more tracks are invalid seeds")),
            r1.2, [c1]⟩
        | Except.ok sds =>
          match g.rec_ with
          | none => none
          | some rc =>
            let r2 := rc.Recommendations n sds r1.2
            let c2 := Call.Recommendations n sds r2.1
            match r2.1.2 with
            | some err =>
              some ⟨(Slice.nil, some (Error.wrap err "cannot fetch recommendations")),
                r2.2, [c1, c2]⟩
            | none =>
              let r3 := serv.TopArtists r2.2
              let c3 := Call.TopArtists r3.1
              match r3.1.2 with
              | some err =>
                some ⟨(Slice.nil, some (Error.wrap err "cannot fetch top artists")),
                  r3.2, [c1, c2, c3]⟩
              | none =>
                match toMap r3.1.1 with
                | none => none
                | some m =>
                  match filter r2.1.1 m with
                  | none => none
                  | some f => some ⟨(f.1, none), r3.2, [c1, c2, c3]⟩

/-- Embedding of `generator.LimitedTracklist`; `none` is a run-time panic. -/
def generator.LimitedTracklist {σ : Type} (g : generator σ) (n : Int) (s : σ) :
    Option (Outcome σ) :=
  if n ≤ 0 then some ⟨(Slice.nil, some Error.errRangeInvalid), s, []⟩
  else
    match g.serv with
    | none => none
    | some serv =>
      let r1 := serv.TopArtists s
      let c1 := Call.TopArtists r1.1
      match r1.1.2 with
      | some err =>
        some ⟨(Slice.nil, some (Error.wrap err "cannot fetch top artists")), r1.2, [c1]⟩
      | none =>
        match artistSeeds r1.1.1.toList Slice.nil with
        | Except.error err =>
          some ⟨(Slice.nil, some (Error.wrap err "one or more artists are invalid seeds")),
            r1.2, [c1]⟩
        | Except.ok sds =>
          match g.rec_ with
          | none => none
          | some rc =>
            let r2 := rc.Recommendations n sds r1.2
            let c2 := Call.Recommendations n sds r2.1
            match r2.1.2 with
            | some err =>
              some ⟨(Slice.nil, some (Error.wrap err "cannot fetch recommendations")),
                r2.2, [c1, c2]⟩
            | none =>
              match toMap r1.1.1 with
              | none => none
              | some m =>
                match filter r2.1.1 m with
                | none => none
                | some f => some ⟨(f.1, none), r2.2, [c1, c2]⟩

/-! ## Test doubles and sample data of `generator_test.go` -/

/-- The test double `fakeMusicService`: each method returns the stored pair. -/
def fakeMusicService (artists : Slice Artist) (artistErr : Option Error)
    (tracks : Slice Track) (trackErr : Option Error) : MusicService Unit :=
  ⟨fun s => ((artists, artistErr), s), fun s => ((tracks, trackErr), s)⟩

/-- The test double `fakeRecommender`: returns the stored pair. -/
def fakeRecommender (tracks : Slice Track) (err : Option Error) : Recommender Unit :=
  ⟨fun _ _ s => ((tracks, err), s)⟩

/-- The constant `testTotal`. -/
def testTotal : Int := 30

/-- Top artists `foo` and `bar` of the generator tests. -/
def testArtists : Slice Artist := Slice.mk [⟨"0", "foo"⟩, ⟨"1", "bar"⟩]

/-- Recent tracks of the generator tests: `baz` by `foo`. -/
def testRecent : Slice Track := Slice.mk [⟨"10", "baz", ⟨"0", "foo"⟩⟩]

/-- Recommendations by `foo`, `garply`, `foo` and `fred`, in that order (the
second end-to-end scenario of the specification). -/
def testRecs : Slice Track :=
  Slice.mk [⟨"21", "qux", ⟨"0", "foo"⟩⟩, ⟨"22", "quux", ⟨"12", "garply"⟩⟩,
    ⟨"23", "corge", ⟨"0", "foo"⟩⟩, ⟨"24", "waldo", ⟨"14", "fred"⟩⟩]

/-- A generator over the test doubles, all of whose fetches succeed. -/
def testGen : generator Unit :=
  ⟨some (fakeMusicService testArtists none testRecent none),
    some (fakeRecommender testRecs none)⟩

/-- The five candidate tracks of `TestFilter`. -/
def testTracks : Slice Track :=
  Slice.mk [⟨"1", "foo", ⟨"11", "grault"⟩⟩, ⟨"2", "bar", ⟨"12", "garply"⟩⟩,
    ⟨"3", "baz", ⟨"11", "grault"⟩⟩, ⟨"4", "qux", ⟨"14", "fred"⟩⟩,
    ⟨"5", "quux", ⟨"14", "fred"⟩⟩]

/-- The single-entry map of `TestFilter`: only `garply`. -/
def garplyMap : GoMap :=
  GoMap.alloc ((∅ : AList (fun _ : String => Artist)).insert "garply" ⟨"12", "garply"⟩)

/-- The two-entry map of `TestFilter`: `grault` and `fred`. -/
def graultFredMap : GoMap :=
  GoMap.alloc (((∅ : AList (fun _ : String => Artist)).insert "grault" ⟨"11", "grault"⟩).insert
    "fred" ⟨"14", "fred"⟩)

/-! ## Functions used to state and prove the properties -/

/-- Entries of an allocated map. -/
abbrev Entries : Type := AList (fun _ : String => Artist)

/-- Tracks the loop of `filter` appends when it starts from an allocated map
with entries `m`. -/
def keptFrom : List Track → Entries → List Track
  | [], _ => []
  | p :: ps, m =>
    match m.lookup p.Artist.Name with
    | some _ => keptFrom ps m
    | none => p :: keptFrom ps (m.insert p.Artist.Name p.Artist)

/-- Entries of the map when the loop of `filter` ends. -/
def entriesAfter : List Track → Entries → Entries
  | [], m => m
  | p :: ps, m =>
    match m.lookup p.Artist.Name with
    | some _ => entriesAfter ps m
    | none => entriesAfter ps (m.insert p.Artist.Name p.Artist)

/-- Slice held by `curr` after appending the tracks `ks` one by one. -/
def grow (curr : Slice Track) (ks : List Track) : Slice Track :=
  if ks = [] then curr else Slice.mk (curr.toList ++ ks)

/-- Position `i` of the candidates `prev` holds a track whose artist name is not
a key of `rmv` and is carried by no candidate at an earlier position. -/
def FirstWins (prev : List Track) (rmv : GoMap) (i : Nat) : Prop :=
  ∃ p, prev[i]? = some p ∧ rmv.get p.Artist.Name = none ∧
    ∀ j q, j < i → prev[j]? = some q → q.Artist.Name ≠ p.Artist.Name

/-- Positions of the tracks the loop of `filter` appends. -/
def keptIdx : List Track → Entries → List Nat
  | [], _ => []
  | p :: ps, m =>
    match m.lookup p.Artist.Name with
    | some _ => (keptIdx ps m).map Nat.succ
    | none => 0 :: (keptIdx ps (m.insert p.Artist.Name p.Artist)).map Nat.succ

/-- Entries of the map when the loop of `toMap` ends. -/
def indexOf : List Artist → Entries → Entries
  | [], m => m
  | p :: ps, m => indexOf ps (m.insert p.Name p)

/-! ## Further sample data of `generator_test.go` -/

/-- The test error `testErrFetchArtists`. -/
def testErrFetchArtists : Error := Error.other "cannot fetch artists"

/-- The test error `testErrFetchRecommendations`. -/
def testErrFetchRecommendations : Error := Error.other "cannot fetch recommendation tracks"

/-- The recommended track `qux` of the case `Valid responses`: its artist is
left unset. -/
def testQux : Track := ⟨"21", "qux", Artist.zero⟩

/-- Generator of the case `Valid responses` of `TestGenerator_Tracklist`. -/
def testGenValid : generator Unit :=
  ⟨some (fakeMusicService testArtists none testRecent none),
    some (fakeRecommender (Slice.mk [testQux]) none)⟩

/-- Generator of the case `Invalid track seed`: the recent track has no
identifier. -/
def testGenTrackSeed : generator Unit :=
  ⟨some (fakeMusicService testArtists none (Slice.mk [⟨"", "baz", ⟨"0", "foo"⟩⟩]) none),
    some (fakeRecommender Slice.nil none)⟩

/-- Generator of the case `Invalid artist seed`: the second top artist has no
identifier. -/
def testGenArtistSeed : generator Unit :=
  ⟨some (fakeMusicService (Slice.mk [⟨"0", "foo"⟩, ⟨"", "bar"⟩]) none Slice.nil none),
    some (fakeRecommender Slice.nil none)⟩

/-- Generator of the case `Empty top artists response`: the top-artists fetch
fails. -/
def testGenTopFail : generator Unit :=
  ⟨some (fakeMusicService Slice.nil (some testErrFetchArtists) testRecent none),
    some (fakeRecommender Slice.nil none)⟩

/-- Generator of the case `Empty recommendation response`, with a catalogue
whose top-artists fetch would fail as well. -/
def testGenRecFail : generator Unit :=
  ⟨some (fakeMusicService Slice.nil (some testErrFetchArtists) testRecent none),
    some (fakeRecommender Slice.nil (some testErrFetchRecommendations))⟩

/-- A generator whose catalogue returns no top artists while the recommender
returns the four tracks of `testRecs`, two of them by `foo`. -/
def testGenNoTop : generator Unit :=
  ⟨some (fakeMusicService (Slice.mk []) none testRecent none),
    some (fakeRecommender testRecs none)⟩

/-- The error a collaborator call returned. -/
def Call.err : Call → Option Error
  | Call.RecentTracks r => r.2
  | Call.TopArtists r => r.2
  | Call.Recommendations _ _ r => r.2

/-- The phrase under which `Tracklist` and `LimitedTracklist` wrap the failure
of a collaborator call. -/
def Call.phrase : Call → String
  | Call.RecentTracks _ => "cannot fetch recent tracks"
  | Call.TopArtists _ => "cannot fetch top artists"
  | Call.Recommendations _ _ _ => "cannot fetch recommendations"

/-- Whether a call is a top-artists fetch. -/
def Call.isTopArtists : Call → Bool
  | Call.TopArtists _ => true
  | _ => false

/-- Whether a call is a recommendation request. -/
def Call.isRecommendations : Call → Bool
  | Call.Recommendations _ _ _ => true
  | _ => false

/-! ## The adapter `spotify/spotify.go`

The client library types are reduced to the fields the adapter reads, over
abstract element types `FA` (full artist), `ST` (simple track) and `SD` (seeds
of one request). The remote calls are state transformers over a world state
`σ`; a pointer result is an `Option` (`none` is nil). -/

namespace Spotify

/-- The adapter error `errInvalidData`. -/
def errInvalidData : Error := Error.other "invalid or empty data returned"

/-- The adapter error `errMissingSeeds`. -/
def errMissingSeeds : Error := Error.other "missing seed input"

/-- Client library page of artists; the adapter reads its field `Artists`. -/
structure FullArtistPage (FA : Type) where
  Artists : Slice FA

/-- Client library item of the recently played list; the adapter reads its
field `Track`. -/
structure RecentlyPlayedItem (ST : Type) where
  Track : ST

/-- Client library recommendation result; the adapter reads its field
`Tracks`. -/
structure Recommendations (ST : Type) where
  Tracks : Slice ST

/-- The functions `parseArtists`, `parseTrack`, `parseSeeds` and
`parseSimpleTracks` of the adapter package, which are not among the sources,
taken as parameters. -/
structure Helpers (FA ST SD : Type) where
  parseArtists : Slice FA → Slice Artist
  parseTrack : ST → Track
  parseSeeds : Slice Seed → Slice SD × Option Error
  parseSimpleTracks : Slice ST → Slice Track

/-- The struct `service` with the three collaborators the fetches use, each
given by its one method: `art.CurrentUsersTopArtists`,
`rec.PlayerRecentlyPlayed` and `recom.GetRecommendations` (whose attribute and
option arguments are the same in every call and are left out). -/
structure service (σ FA ST SD : Type) where
  art : σ → (Option (FullArtistPage FA) × Option Error) × σ
  rec_ : σ → (Slice (RecentlyPlayedItem ST) × Option Error) × σ
  recom : SD → σ → (Option (Recommendations ST) × Option Error) × σ

/-- Go `append(s, t...)`: with nothing to append the slice `s` is returned as it
is, otherwise the result is allocated. -/
def appendSlice {α : Type} (s t : Slice α) : Slice α :=
  match t.toList with
  | [] => s
  | x :: xs => Slice.mk (s.toList ++ x :: xs)

/-- Embedding of `service.TopArtists`. -/
def service.TopArtists {σ FA ST SD : Type} (h : Helpers FA ST SD) (sv : service σ FA ST SD)
    (s : σ) : Ret Artist × σ :=
  let r := sv.art s
  match r.1.2 with
  | some err => ((Slice.nil, some (Error.wrap err "cannot fetch top artists")), r.2)
  | none =>
    match r.1.1 with
    | none => ((Slice.nil, some errInvalidData), r.2)
    | some top => ((h.parseArtists top.Artists, none), r.2)

/-- Embedding of `service.RecentTracks`. -/
def service.RecentTracks {σ FA ST SD : Type} (h : Helpers FA ST SD)
    (sv : service σ FA ST SD) (s : σ) : Ret Track × σ :=
  let r := sv.rec_ s
  match r.1.2 with
  | some err =>
    ((Slice.nil, some (Error.wrap err "cannot fetch recently played tracks")), r.2)
  | none =>
    if r.1.1.len ≤ 0 then ((Slice.nil, some errInvalidData), r.2)
    else
      ((r.1.1.toList.foldl (fun t item => t.append (h.parseTrack item.Track)) Slice.nil,
        none), r.2)

/-- Loop of `service.Recommendations`: one request per element of `sds`. -/
def recsLoop {σ FA ST SD : Type} (h : Helpers FA ST SD) (sv : service σ FA ST SD) :
    List SD → Slice Track → σ → Ret Track × σ
  | [], tracks, s => ((tracks, none), s)
  | sd :: rest, tracks, s =>
    match (sv.recom sd s).1.2 with
    | some err =>
      ((Slice.nil, some (Error.wrap err "cannot fetch recommendations")), (sv.recom sd s).2)
    | none =>
      match (sv.recom sd s).1.1 with
      | none => ((Slice.nil, some errInvalidData), (sv.recom sd s).2)
      | some recs =>
        recsLoop h sv rest (appendSlice tracks (h.parseSimpleTracks recs.Tracks))
          (sv.recom sd s).2

/-- Embedding of `service.Recommendations`. -/
def service.Recommendations {σ FA ST SD : Type} (h : Helpers FA ST SD)
    (sv : service σ FA ST SD) (seeds : Slice Seed) (s : σ) : Ret Track × σ :=
  if seeds.len ≤ 0 then ((Slice.nil, some errMissingSeeds), s)
  else
    match (h.parseSeeds seeds).2 with
    | some err => ((Slice.nil, some err), s)
    | none => recsLoop h sv (h.parseSeeds seeds).1.toList Slice.nil s

end Spotify

/-! ## Auxiliary facts about the loops -/

theorem grow_toList (curr : Slice Track) (ks : List Track) :
    (grow curr ks).toList = curr.toList ++ ks := by
  unfold grow
  split
  · next h => simp [h]
  · rfl

theorem grow_append (curr : Slice Track) (p : Track) (ks : List Track) :
    grow (curr.append p) ks = grow curr (p :: ks) := by
  unfold grow Slice.append
  by_cases h : ks = []
  · simp [h, Slice.toList]
  · simp [h, Slice.toList]

theorem filterLoop_alloc (ps : List Track) (curr : Slice Track) (m : Entries) :
    filterLoop ps curr (GoMap.alloc m)
      = some (grow curr (keptFrom ps m), GoMap.alloc (entriesAfter ps m)) := by
  induction ps generalizing curr m with
  | nil => simp [filterLoop, keptFrom, entriesAfter, grow]
  | cons p ps ih =>
    cases h : m.lookup p.Artist.Name with
    | none =>
      simp only [filterLoop, GoMap.get, GoMap.set, keptFrom, entriesAfter, h]
      rw [ih, grow_append]
    | some a =>
      simp only [filterLoop, GoMap.get, keptFrom, entriesAfter, h]
      rw [ih]

theorem GoMap.len_ne_zero {rmv : GoMap} (h : rmv.len ≠ 0) : ∃ m, rmv = GoMap.alloc m := by
  cases rmv with
  | nil => exact absurd rfl h
  | alloc m => exact ⟨m, rfl⟩

theorem keptFrom_sublist (ps : List Track) (m : Entries) : List.Sublist (keptFrom ps m) ps := by
  induction ps generalizing m with
  | nil => simp [keptFrom]
  | cons p ps ih =>
    cases h : m.lookup p.Artist.Name with
    | none => simp only [keptFrom, h]; exact (ih _).cons₂ p
    | some a => simp only [keptFrom, h]; exact (ih _).cons p

theorem keptFrom_lookup (ps : List Track) (m : Entries) (t : Track) (ht : t ∈ keptFrom ps m) :
    m.lookup t.Artist.Name = none := by
  induction ps generalizing m with
  | nil => simp [keptFrom] at ht
  | cons p ps ih =>
    cases h : m.lookup p.Artist.Name with
    | none =>
      simp only [keptFrom, h, List.mem_cons] at ht
      rcases ht with rfl | ht
      · exact h
      · have h1 := ih _ ht
        rw [AList.lookup_insert_eq_none] at h1
        exact h1.2
    | some a =>
      simp only [keptFrom, h] at ht
      exact ih _ ht

theorem keptFrom_nodup (ps : List Track) (m : Entries) :
    ((keptFrom ps m).map (fun t => t.Artist.Name)).Nodup := by
  induction ps generalizing m with
  | nil => simp [keptFrom]
  | cons p ps ih =>
    cases h : m.lookup p.Artist.Name with
    | none =>
      simp only [keptFrom, h, List.map_cons, List.nodup_cons, List.mem_map, not_exists, not_and]
      refine ⟨?_, ih _⟩
      intro t ht hn
      have h1 := keptFrom_lookup ps _ t ht
      rw [AList.lookup_insert_eq_none] at h1
      exact h1.1 hn
    | some a => simp only [keptFrom, h]; exact ih _

theorem keptIdx_sorted (ps : List Track) (m : Entries) :
    (keptIdx ps m).Sorted (fun a b => a < b) := by
  induction ps generalizing m with
  | nil => simp [keptIdx]
  | cons p ps ih =>
    have hmap : ∀ m1 : Entries, ((keptIdx ps m1).map Nat.succ).Sorted (fun a b => a < b) := by
      intro m1
      have h1 := ih m1
      unfold List.Sorted at h1 ⊢
      rw [List.pairwise_map]
      exact h1.imp (fun h => Nat.succ_lt_succ h)
    cases h : m.lookup p.Artist.Name with
    | none =>
      simp only [keptIdx, h]
      refine List.Pairwise.cons ?_ (hmap _)
      intro b hb
      rw [List.mem_map] at hb
      obtain ⟨c, _, rfl⟩ := hb
      exact Nat.succ_pos c
    | some a =>
      simp only [keptIdx, h]
      exact hmap _

theorem keptIdx_filterMap (ps : List Track) (m : Entries) :
    (keptIdx ps m).filterMap (fun i => ps[i]?) = keptFrom ps m := by
  induction ps generalizing m with
  | nil => simp [keptIdx, keptFrom]
  | cons p ps ih =>
    cases h : m.lookup p.Artist.Name with
    | none =>
      simp only [keptIdx, keptFrom, h, List.filterMap_cons, List.getElem?_cons_zero,
        List.filterMap_map]
      congr 1
      rw [← ih]
      exact congrArg (fun f => List.filterMap f _) (funext fun i => by simp)
    | some a =>
      simp only [keptIdx, keptFrom, h, List.filterMap_map]
      rw [← ih]
      exact congrArg (fun f => List.filterMap f _) (funext fun i => by simp)

theorem firstWins_succ (p : Track) (ps : List Track) (m : Entries) (j : Nat) :
    FirstWins (p :: ps) (GoMap.alloc m) (j + 1) ↔
      ∃ q, ps[j]? = some q ∧ m.lookup q.Artist.Name = none ∧
        p.Artist.Name ≠ q.Artist.Name ∧
        ∀ k r, k < j → ps[k]? = some r → r.Artist.Name ≠ q.Artist.Name := by
  constructor
  · rintro ⟨q, hq, hl, hall⟩
    refine ⟨q, by simpa using hq, hl, hall 0 p (Nat.succ_pos j) (by simp), ?_⟩
    intro k r hk hr
    exact hall (k + 1) r (Nat.succ_lt_succ hk) (by simpa using hr)
  · rintro ⟨q, hq, hl, hp, hall⟩
    refine ⟨q, by simpa using hq, hl, ?_⟩
    intro k r hk hr
    cases k with
    | zero =>
      simp only [List.getElem?_cons_zero, Option.some.injEq] at hr
      subst hr
      exact hp
    | succ k => exact hall k r (Nat.lt_of_succ_lt_succ hk) (by simpa using hr)

theorem mem_keptIdx (ps : List Track) (m : Entries) (i : Nat) :
    i ∈ keptIdx ps m ↔ FirstWins ps (GoMap.alloc m) i := by
  induction ps generalizing m i with
  | nil => simp [keptIdx, FirstWins]
  | cons p ps ih =>
    cases i with
    | zero =>
      cases h : m.lookup p.Artist.Name with
      | none =>
        simp only [keptIdx, h, List.mem_cons, true_or, true_iff]
        exact ⟨p, by simp, h, fun j q hj => absurd hj (Nat.not_lt_zero j)⟩
      | some a =>
        simp only [keptIdx, h, List.mem_map, Nat.succ_ne_zero, and_false, exists_false,
          false_iff]
        rintro ⟨q, hq, hl, _⟩
        simp only [List.getElem?_cons_zero, Option.some.injEq] at hq
        subst hq
        simp [GoMap.get, h] at hl
    | succ j =>
      rw [firstWins_succ]
      cases h : m.lookup p.Artist.Name with
      | none =>
        simp only [keptIdx, h, List.mem_cons, Nat.succ_ne_zero, false_or, List.mem_map,
          Nat.succ.injEq, exists_eq_right]
        rw [ih]
        constructor
        · rintro ⟨q, hq, hl, hall⟩
          simp only [GoMap.get, AList.lookup_insert_eq_none] at hl
          exact ⟨q, hq, hl.2, fun e => hl.1 e.symm, hall⟩
        · rintro ⟨q, hq, hl, hp, hall⟩
          refine ⟨q, hq, ?_, hall⟩
          simp only [GoMap.get, AList.lookup_insert_eq_none]
          exact ⟨fun e => hp e.symm, hl⟩
      | some a =>
        simp only [keptIdx, h, List.mem_map, Nat.succ.injEq, exists_eq_right]
        rw [ih]
        constructor
        · rintro ⟨q, hq, hl, hall⟩
          refine ⟨q, hq, hl, ?_, hall⟩
          intro e
          simp only [GoMap.get] at hl
          rw [e, hl] at h
          exact Option.noConfusion h
        · rintro ⟨q, hq, hl, _, hall⟩
          exact ⟨q, hq, hl, hall⟩

theorem toMapLoop_alloc (ps : List Artist) (m : Entries) :
    toMapLoop ps (GoMap.alloc m) = some (GoMap.alloc (indexOf ps m)) := by
  induction ps generalizing m with
  | nil => rfl
  | cons p ps ih => simp only [toMapLoop, GoMap.set, indexOf]; rw [ih]

theorem indexOf_append (pre post : List Artist) (m : Entries) :
    indexOf (pre ++ post) m = indexOf post (indexOf pre m) := by
  induction pre generalizing m with
  | nil => rfl
  | cons p ps ih => exact ih _

theorem lookup_indexOf_of_ne (ps : List Artist) (m : Entries) (k : String)
    (h : ∀ b ∈ ps, b.Name ≠ k) : (indexOf ps m).lookup k = m.lookup k := by
  induction ps generalizing m with
  | nil => rfl
  | cons p ps ih =>
    simp only [indexOf]
    rw [ih _ (fun b hb => h b (List.mem_cons_of_mem _ hb))]
    exact AList.lookup_insert_ne (fun e => h p (List.mem_cons_self _ _) e.symm)

theorem mem_indexOf (ps : List Artist) (m : Entries) (k : String) :
    k ∈ indexOf ps m ↔ k ∈ m ∨ ∃ a ∈ ps, a.Name = k := by
  induction ps generalizing m with
  | nil => simp [indexOf]
  | cons p ps ih =>
    simp only [indexOf]
    rw [ih, AList.mem_insert]
    constructor
    · rintro ((rfl | h) | ⟨a, ha, rfl⟩)
      · exact Or.inr ⟨p, List.mem_cons_self _ _, rfl⟩
      · exact Or.inl h
      · exact Or.inr ⟨a, List.mem_cons_of_mem _ ha, rfl⟩
    · rintro (h | ⟨a, ha, rfl⟩)
      · exact Or.inl (Or.inr h)
      · rcases List.mem_cons.mp ha with rfl | ha
        · exact Or.inl (Or.inl rfl)
        · exact Or.inr ⟨a, ha, rfl⟩

theorem entries_len_ne_zero {m : Entries} {k : String} (h : k ∈ m) :
    (GoMap.alloc m).len ≠ 0 := by
  intro h0
  simp only [GoMap.len, List.length_eq_zero] at h0
  rw [AList.mem_keys] at h
  simp [AList.keys, h0] at h

theorem toMap_of_len_ne_zero (prev : Slice Artist) (h : prev.len ≠ 0) :
    toMap prev = some (GoMap.alloc (indexOf prev.toList ∅)) := by
  simp only [toMap, h, if_false, GoMap.make]
  exact toMapLoop_alloc _ _

/-- What `filter` returns in each of its three branches. -/
theorem filter_cases (prev : Slice Track) (rmv : GoMap) :
    (prev.len = 0 ∧ filter prev rmv = some (Slice.nil, rmv)) ∨
    (prev.len ≠ 0 ∧ rmv.len = 0 ∧ filter prev rmv = some (prev, rmv)) ∨
    (prev.len ≠ 0 ∧ ∃ m, rmv = GoMap.alloc m ∧ rmv.len ≠ 0 ∧
      filter prev rmv = some (grow Slice.nil (keptFrom prev.toList m),
        GoMap.alloc (entriesAfter prev.toList m))) := by
  by_cases h1 : prev.len = 0
  · exact Or.inl ⟨h1, by simp [filter, h1]⟩
  · by_cases h2 : rmv.len = 0
    · exact Or.inr (Or.inl ⟨h1, h2, by simp [filter, h1, h2]⟩)
    · obtain ⟨m, rfl⟩ := GoMap.len_ne_zero h2
      refine Or.inr (Or.inr ⟨h1, m, rfl, h2, ?_⟩)
      simp only [filter, h1, h2, if_false]
      exact filterLoop_alloc _ _ _

/-- Every call of `filter` returns; the tracks returned are candidates in their
original order, and when the map has entries none of them carries a name that
is a key of it. -/
theorem filter_returns (prev : Slice Track) (rmv : GoMap) :
    ∃ out rmv1, filter prev rmv = some (out, rmv1) ∧
      List.Sublist out.toList prev.toList ∧
      (rmv.len ≠ 0 → ∀ t ∈ out.toList, rmv.get t.Artist.Name = none) := by
  rcases filter_cases prev rmv with ⟨_, h⟩ | ⟨_, h0, h⟩ | ⟨_, m, rfl, _, h⟩
  · exact ⟨_, _, h, by simp [Slice.toList], fun _ t ht => by simp [Slice.toList] at ht⟩
  · exact ⟨_, _, h, List.Sublist.refl _, fun hne => absurd h0 hne⟩
  · refine ⟨_, _, h, ?_, ?_⟩
    · rw [grow_toList]
      simpa [Slice.toList] using keptFrom_sublist prev.toList m
    · intro _ t ht
      rw [grow_toList] at ht
      simp only [Slice.toList, List.nil_append] at ht
      exact keptFrom_lookup _ _ t ht

/-- Composition used by both generator methods: `filter(recs, toMap(top))`
returns, and no returned track carries the name of an artist of `top`. -/
theorem filter_toMap_returns (recs : Slice Track) (top : Slice Artist) :
    ∃ m f, toMap top = some m ∧ filter recs m = some f ∧
      ∀ a ∈ top.toList, ∀ t ∈ f.1.toList, t.Artist.Name ≠ a.Name := by
  by_cases h : top.len = 0
  · obtain ⟨out, rmv1, hf, _, _⟩ := filter_returns recs GoMap.nil
    refine ⟨GoMap.nil, (out, rmv1), by simp [toMap, h], hf, ?_⟩
    intro a ha
    have : top.toList = [] := List.length_eq_zero.mp h
    rw [this] at ha
    simp at ha
  · obtain ⟨out, rmv1, hf, _, hget⟩ :=
      filter_returns recs (GoMap.alloc (indexOf top.toList ∅))
    refine ⟨_, (out, rmv1), toMap_of_len_ne_zero top h, hf, ?_⟩
    intro a ha t ht e
    have hmem : a.Name ∈ indexOf top.toList ∅ :=
      (mem_indexOf _ _ _).mpr (Or.inr ⟨a, ha, rfl⟩)
    have h1 := hget (entries_len_ne_zero hmem) t ht
    rw [e] at h1
    simp only [GoMap.get, AList.lookup_eq_none] at h1
    exact h1 hmem


theorem keptFrom_filter_name (ps : List Track) (m : Entries) (k : String) :
    (keptFrom ps m).filter (fun t => decide (t.Artist.Name = k)) =
      match m.lookup k with
      | some _ => []
      | none => (ps.find? (fun t => decide (t.Artist.Name = k))).toList := by
  induction ps generalizing m with
  | nil => cases m.lookup k <;> simp [keptFrom]
  | cons p ps ih =>
    cases h : m.lookup p.Artist.Name with
    | some a =>
      simp only [keptFrom, h]
      rw [ih]
      cases hk : m.lookup k with
      | some b => rfl
      | none =>
        have hne : ¬ p.Artist.Name = k := fun e => by
          rw [e, hk] at h; exact Option.noConfusion h
        simp [List.find?_cons, hne]
    | none =>
      simp only [keptFrom, h]
      by_cases hpk : p.Artist.Name = k
      · have h1 : (m.insert p.Artist.Name p.Artist).lookup k = some p.Artist := by
          rw [← hpk]; exact AList.lookup_insert m
        have h2 : m.lookup k = none := by rw [← hpk]; exact h
        simp only [List.filter_cons, hpk, decide_True, if_true, ih, h2, List.find?_cons]
        rw [← hpk] at h1 ⊢
        simp [h1]
      · have h1 : (m.insert p.Artist.Name p.Artist).lookup k = m.lookup k :=
          AList.lookup_insert_ne (fun e => hpk e.symm)
        simp only [List.filter_cons, hpk, decide_False, Bool.false_eq_true, if_false, ih, h1,
          List.find?_cons]

theorem GoMap.mem_keys_alloc {rmv : GoMap} {k : String} (h : k ∈ rmv.keys) :
    ∃ m, rmv = GoMap.alloc m ∧ k ∈ m := by
  cases rmv with
  | nil => simp [GoMap.keys] at h
  | alloc m => exact ⟨m, rfl, AList.mem_keys.mpr h⟩

/-! ## The claims -/

/-- C1: for every `n > 0` and all collaborators, `Tracklist(n)` and
`LimitedTracklist(n)` return, and no returned track carries the display name of
an artist of the top-artists list the catalogue returned during the call. This
holds in particular when all fetches succeed. -/
theorem tracklists_exclude_top_artists {σ : Type} (serv : MusicService σ)
    (rc : Recommender σ) (n : Int) (hn : 0 < n) (s : σ) :
    (∃ o, generator.Tracklist ⟨some serv, some rc⟩ n s = some o ∧
      ∀ top e, Call.TopArtists (top, e) ∈ o.calls →
        ∀ a ∈ top.toList, ∀ t ∈ o.ret.1.toList, t.Artist.Name ≠ a.Name) ∧
    (∃ o, generator.LimitedTracklist ⟨some serv, some rc⟩ n s = some o ∧
      ∀ top e, Call.TopArtists (top, e) ∈ o.calls →
        ∀ a ∈ top.toList, ∀ t ∈ o.ret.1.toList, t.Artist.Name ≠ a.Name) := by
  have hn1 : ¬ n ≤ 0 := not_le.mpr hn
  have hnil : ∀ (a : Artist) (t : Track), t ∈ (Slice.nil : Slice Track).toList →
      t.Artist.Name ≠ a.Name := fun a t ht => by simp [Slice.toList] at ht
  constructor
  · simp only [generator.Tracklist, hn1, if_false]
    split
    · exact ⟨_, rfl, fun top e _ a _ t ht => hnil a t ht⟩
    · split
      · exact ⟨_, rfl, fun top e _ a _ t ht => hnil a t ht⟩
      · next sds _ =>
        split
        · exact ⟨_, rfl, fun top e _ a _ t ht => hnil a t ht⟩
        · split
          · exact ⟨_, rfl, fun top e _ a _ t ht => hnil a t ht⟩
          · obtain ⟨m, f, hm, hf, hex⟩ := filter_toMap_returns
              (rc.Recommendations n sds (serv.RecentTracks s).2).1.1
              (serv.TopArtists (rc.Recommendations n sds (serv.RecentTracks s).2).2).1.1
            simp only [hm, hf]
            refine ⟨_, rfl, ?_⟩
            intro top e hmem a ha t ht
            simp only [List.mem_cons, List.mem_singleton, Call.TopArtists.injEq,
              List.mem_nil_iff, or_false, false_or, reduceCtorEq] at hmem
            have h1 : top = (serv.TopArtists
              (rc.Recommendations n sds (serv.RecentTracks s).2).2).1.1 := by rw [← hmem]
            subst h1
            exact hex a ha t ht
  · simp only [generator.LimitedTracklist, hn1, if_false]
    split
    · exact ⟨_, rfl, fun top e _ a _ t ht => hnil a t ht⟩
    · split
      · exact ⟨_, rfl, fun top e _ a _ t ht => hnil a t ht⟩
      · next sds _ =>
        split
        · exact ⟨_, rfl, fun top e _ a _ t ht => hnil a t ht⟩
        · obtain ⟨m, f, hm, hf, hex⟩ := filter_toMap_returns
            (rc.Recommendations n sds (serv.TopArtists s).2).1.1 (serv.TopArtists s).1.1
          simp only [hm, hf]
          refine ⟨_, rfl, ?_⟩
          intro top e hmem a ha t ht
          simp only [List.mem_cons, List.mem_singleton, Call.TopArtists.injEq,
            List.mem_nil_iff, or_false, false_or, reduceCtorEq] at hmem
          have h1 : top = (serv.TopArtists s).1.1 := by rw [← hmem]
          subst h1
          exact hex a ha t ht

/-- Witness of C1: the test doubles with top artists `foo` and `bar` and
recommendations by `foo`, `garply`, `foo`, `fred`, where both methods return the
`garply` and `fred` tracks. -/
theorem tracklists_exclude_top_artists_witness :
    (0 : Int) < testTotal ∧
    ((testGen.Tracklist testTotal ()).map (fun o => o.ret)
      = some (Slice.mk [⟨"22", "quux", ⟨"12", "garply"⟩⟩, ⟨"24", "waldo", ⟨"14", "fred"⟩⟩],
          none)) ∧
    (∃ o, testGen.Tracklist testTotal () = some o ∧
      ∀ top e, Call.TopArtists (top, e) ∈ o.calls →
        ∀ a ∈ top.toList, ∀ t ∈ o.ret.1.toList, t.Artist.Name ≠ a.Name) ∧
    (∃ o, testGen.LimitedTracklist testTotal () = some o ∧
      ∀ top e, Call.TopArtists (top, e) ∈ o.calls →
        ∀ a ∈ top.toList, ∀ t ∈ o.ret.1.toList, t.Artist.Name ≠ a.Name) :=
  ⟨by decide, by decide,
    tracklists_exclude_top_artists (fakeMusicService testArtists none testRecent none)
      (fakeRecommender testRecs none) testTotal (by decide) ()⟩

/-- C2: for every candidate list and every exclusion set, if a name is a key of
the exclusion set on entry (whether or not it appears among the candidates),
`filter` returns and its output has no track whose artist has that name. -/
theorem filter_drops_excluded (prev : Slice Track) (rmv : GoMap) (k : String)
    (hk : k ∈ rmv.keys) :
    ∃ out rmv1, filter prev rmv = some (out, rmv1) ∧
      ∀ t ∈ out.toList, t.Artist.Name ≠ k := by
  obtain ⟨m, rfl, hm⟩ := GoMap.mem_keys_alloc hk
  obtain ⟨out, rmv1, hf, _, hget⟩ := filter_returns prev (GoMap.alloc m)
  refine ⟨out, rmv1, hf, ?_⟩
  intro t ht e
  have h1 := hget (entries_len_ne_zero hm) t ht
  rw [e] at h1
  simp only [GoMap.get, AList.lookup_eq_none] at h1
  exact h1 hm

/-- Witness of C2: the candidates of `TestFilter` against the map holding
`garply`, a name the second candidate carries. -/
theorem filter_drops_excluded_witness :
    "garply" ∈ garplyMap.keys ∧
    (∃ t ∈ testTracks.toList, t.Artist.Name = "garply") ∧
    ∃ out rmv1, filter testTracks garplyMap = some (out, rmv1) ∧
      ∀ t ∈ out.toList, t.Artist.Name ≠ "garply" :=
  ⟨by decide, by decide, filter_drops_excluded testTracks garplyMap "garply" (by decide)⟩


/-- Counterexample to C3 as stated: with an allocated map that has no entries,
`filter` returns both tracks by `grault`, the second one included. -/
theorem filter_empty_map_keeps_repeats :
    GoMap.make.len = 0 ∧
    (filter (Slice.mk [⟨"1", "foo", ⟨"11", "grault"⟩⟩, ⟨"3", "baz", ⟨"11", "grault"⟩⟩])
        GoMap.make).map (fun r => r.1)
      = some (Slice.mk [⟨"1", "foo", ⟨"11", "grault"⟩⟩, ⟨"3", "baz", ⟨"11", "grault"⟩⟩]) := by
  decide

/-- C3, amended: let the candidates hold two or more tracks by the artist name
`k`. Given an exclusion set without entries (allocated or nil), `filter` returns
all candidates unchanged. Given an exclusion set with at least one entry, none
of them under `k`, exactly one track by `k` is returned, the first candidate by
`k`. -/
theorem filter_repeated_artist (prev : Slice Track) (rmv : GoMap) (k : String)
    (hk : 2 ≤ (prev.toList.filter (fun t => decide (t.Artist.Name = k))).length) :
    (rmv.len = 0 → filter prev rmv = some (prev, rmv)) ∧
    (rmv.len ≠ 0 → rmv.get k = none →
      ∃ out rmv1 first, filter prev rmv = some (out, rmv1) ∧
        prev.toList.find? (fun t => decide (t.Artist.Name = k)) = some first ∧
        out.toList.filter (fun t => decide (t.Artist.Name = k)) = [first]) := by
  obtain ⟨p, hpmem⟩ := List.exists_mem_of_length_pos (Nat.lt_of_lt_of_le Nat.zero_lt_two hk)
  rw [List.mem_filter] at hpmem
  have hlen : prev.len ≠ 0 := by
    intro h0
    have : prev.toList = [] := List.length_eq_zero.mp h0
    rw [this] at hpmem
    simp at hpmem
  constructor
  · intro h0
    simp [filter, hlen, h0]
  · intro hne hget
    rcases filter_cases prev rmv with ⟨h, _⟩ | ⟨_, h0, _⟩ | ⟨_, m, rfl, _, h⟩
    · exact absurd h hlen
    · exact absurd h0 hne
    · have hsome : (prev.toList.find? (fun t => decide (t.Artist.Name = k))).isSome := by
        rw [List.find?_isSome]
        exact ⟨p, hpmem.1, hpmem.2⟩
      obtain ⟨first, hfirst⟩ := Option.isSome_iff_exists.mp hsome
      refine ⟨_, _, first, h, hfirst, ?_⟩
      have hnil : (Slice.nil : Slice Track).toList = [] := rfl
      rw [grow_toList, hnil, List.nil_append, keptFrom_filter_name]
      simp only [GoMap.get] at hget
      rw [hget, hfirst]
      rfl

/-- Witness of C3, amended: the candidates of `TestFilter`, whose first and
third tracks are by `grault`, against the map holding only `garply`. -/
theorem filter_repeated_artist_witness :
    2 ≤ (testTracks.toList.filter (fun t => decide (t.Artist.Name = "grault"))).length ∧
    garplyMap.len ≠ 0 ∧ garplyMap.get "grault" = none ∧
    ((garplyMap.len = 0 → filter testTracks garplyMap = some (testTracks, garplyMap)) ∧
    (garplyMap.len ≠ 0 → garplyMap.get "grault" = none →
      ∃ out rmv1 first, filter testTracks garplyMap = some (out, rmv1) ∧
        testTracks.toList.find? (fun t => decide (t.Artist.Name = "grault")) = some first ∧
        out.toList.filter (fun t => decide (t.Artist.Name = "grault")) = [first])) :=
  ⟨by decide, by decide, by decide,
    filter_repeated_artist testTracks garplyMap "grault" (by decide)⟩

/-- C4: for every non-empty candidate list and every exclusion set without
entries (nil, or allocated and empty), `filter` returns exactly the candidate
slice, repeated artists included, and the exclusion set is left as it was,
without entries. -/
theorem filter_passthrough (prev : Slice Track) (rmv : GoMap)
    (h1 : prev.len ≠ 0) (h2 : rmv.len = 0) :
    ∃ rmv1, filter prev rmv = some (prev, rmv1) ∧ rmv1 = rmv ∧ rmv1.len = 0 :=
  ⟨rmv, by simp [filter, h1, h2], rfl, h2⟩

/-- Witness of C4: the candidates of `TestFilter` against the nil map. -/
theorem filter_passthrough_witness :
    testTracks.len ≠ 0 ∧ GoMap.nil.len = 0 ∧
    ∃ rmv1, filter testTracks GoMap.nil = some (testTracks, rmv1) ∧
      rmv1 = GoMap.nil ∧ rmv1.len = 0 :=
  ⟨by decide, by decide, filter_passthrough testTracks GoMap.nil (by decide) (by decide)⟩

/-- C5: for every non-empty candidate list and every non-empty exclusion set,
`filter` returns the candidates at the positions `idx`, in increasing order,
where a position belongs to `idx` exactly when its track's artist name is not a
key of the initial exclusion set and no earlier candidate carries that name;
the artist names of the returned tracks are pairwise distinct. -/
theorem filter_first_occurrence_wins (prev : Slice Track) (rmv : GoMap)
    (h1 : prev.len ≠ 0) (h2 : rmv.len ≠ 0) :
    ∃ out rmv1, filter prev rmv = some (out, rmv1) ∧
      (∃ idx : List Nat, idx.Sorted (fun a b => a < b) ∧
        out.toList = idx.filterMap (fun i => prev.toList[i]?) ∧
        ∀ i, i ∈ idx ↔ FirstWins prev.toList rmv i) ∧
      (out.toList.map (fun t => t.Artist.Name)).Nodup := by
  rcases filter_cases prev rmv with ⟨h, _⟩ | ⟨_, h0, _⟩ | ⟨_, m, rfl, _, h⟩
  · exact absurd h h1
  · exact absurd h0 h2
  · refine ⟨_, _, h, ⟨keptIdx prev.toList m, keptIdx_sorted _ _, ?_, mem_keptIdx _ _⟩, ?_⟩
    · rw [grow_toList, keptIdx_filterMap]
      simp [Slice.toList]
    · rw [grow_toList]
      simpa [Slice.toList] using keptFrom_nodup prev.toList m

/-- Witness of C5: the candidates of `TestFilter` against the map holding only
`garply`. -/
theorem filter_first_occurrence_wins_witness :
    testTracks.len ≠ 0 ∧ garplyMap.len ≠ 0 ∧
    ∃ out rmv1, filter testTracks garplyMap = some (out, rmv1) ∧
      (∃ idx : List Nat, idx.Sorted (fun a b => a < b) ∧
        out.toList = idx.filterMap (fun i => testTracks.toList[i]?) ∧
        ∀ i, i ∈ idx ↔ FirstWins testTracks.toList garplyMap i) ∧
      (out.toList.map (fun t => t.Artist.Name)).Nodup :=
  ⟨by decide, by decide,
    filter_first_occurrence_wins testTracks garplyMap (by decide) (by decide)⟩

/-- C6: for every candidate list and every exclusion set, `filter` returns and
its output is a subsequence of the candidates: every returned track is a
candidate and the returned tracks keep their relative order. -/
theorem filter_sublist (prev : Slice Track) (rmv : GoMap) :
    ∃ out rmv1, filter prev rmv = some (out, rmv1) ∧
      List.Sublist out.toList prev.toList := by
  obtain ⟨out, rmv1, hf, hsub, _⟩ := filter_returns prev rmv
  exact ⟨out, rmv1, hf, hsub⟩

/-- C7: for every exclusion set (nil, empty or populated), `filter` applied to
a candidate slice of length zero (nil or allocated) returns the nil slice. -/
theorem filter_empty_candidates (prev : Slice Track) (rmv : GoMap) (h : prev.len = 0) :
    ∃ rmv1, filter prev rmv = some (Slice.nil, rmv1) :=
  ⟨rmv, by simp [filter, h]⟩

/-- Witness of C7: an allocated slice without elements against the populated
map of `TestFilter`. -/
theorem filter_empty_candidates_witness :
    (Slice.mk ([] : List Track)).len = 0 ∧
    ∃ rmv1, filter (Slice.mk []) graultFredMap = some (Slice.nil, rmv1) :=
  ⟨by decide, filter_empty_candidates (Slice.mk []) graultFredMap (by decide)⟩

/-- C8: `toMap` applied to an artist slice of length zero (nil or allocated)
returns the nil map; applied to a non-empty slice it returns an allocated map
whose keys are exactly the display names in the slice and in which each name
maps to the last artist of the slice carrying that name. -/
theorem toMap_spec (prev : Slice Artist) :
    (prev.len = 0 → toMap prev = some GoMap.nil) ∧
    (prev.len ≠ 0 → ∃ m, toMap prev = some (GoMap.alloc m) ∧
      (∀ k, k ∈ (GoMap.alloc m).keys ↔ ∃ a ∈ prev.toList, a.Name = k) ∧
      ∀ pre a post, prev.toList = pre ++ a :: post → (∀ b ∈ post, b.Name ≠ a.Name) →
        (GoMap.alloc m).get a.Name = some a) := by
  constructor
  · intro h
    simp [toMap, h]
  · intro h
    refine ⟨_, toMap_of_len_ne_zero prev h, ?_, ?_⟩
    · intro k
      simp only [GoMap.keys]
      rw [← AList.mem_keys, mem_indexOf]
      simp [AList.not_mem_empty]
    · intro pre a post hsplit hlast
      simp only [GoMap.get]
      rw [hsplit, indexOf_append]
      simp only [indexOf]
      rw [lookup_indexOf_of_ne post _ a.Name hlast]
      exact AList.lookup_insert _

/-- C9: for every `n <= 0` and every generator (nil collaborators included),
`Tracklist(n)` and `LimitedTracklist(n)` return the nil slice and the range
error, make no collaborator call and leave the world state as it was. -/
theorem tracklists_range_error {σ : Type} (g : generator σ) (n : Int) (hn : n ≤ 0) (s : σ) :
    g.Tracklist n s = some ⟨(Slice.nil, some Error.errRangeInvalid), s, []⟩ ∧
    g.LimitedTracklist n s = some ⟨(Slice.nil, some Error.errRangeInvalid), s, []⟩ := by
  constructor
  · simp [generator.Tracklist, hn]
  · simp [generator.LimitedTracklist, hn]

/-- Witness of C9: the generator over the test doubles with `n = 0`. -/
theorem tracklists_range_error_witness :
    (0 : Int) ≤ 0 ∧
    testGen.Tracklist 0 () = some ⟨(Slice.nil, some Error.errRangeInvalid), (), []⟩ ∧
    testGen.LimitedTracklist 0 () = some ⟨(Slice.nil, some Error.errRangeInvalid), (), []⟩ :=
  ⟨by decide, tracklists_range_error testGen 0 (by decide) ()⟩

/-- C10: `New` returns the nil pointer and the configuration error exactly when
at least one of the two collaborators is nil; otherwise it returns, with a nil
error, a generator holding exactly those two collaborators. -/
theorem New_spec {σ : Type} (serv : Option (MusicService σ)) (rec_ : Option (Recommender σ)) :
    (((New serv rec_).1 = none ∧ (New serv rec_).2 = some Error.errNilGen) ↔
      (serv = none ∨ rec_ = none)) ∧
    (¬ (serv = none ∨ rec_ = none) → New serv rec_ = (some ⟨serv, rec_⟩, none)) := by
  cases serv <;> cases rec_ <;> simp [New]

/-! ## The paths through `Tracklist` and `LimitedTracklist` -/

theorem trackSeeds_error (ts : List Track) (sds : Slice Seed) (h : ∃ t ∈ ts, t.ID = "") :
    trackSeeds ts sds = Except.error Error.errTrackSeed := by
  induction ts generalizing sds with
  | nil => simp at h
  | cons t ts ih =>
    by_cases ht : t.ID = ""
    · simp [trackSeeds, Track.Seed, ht]
    · simp only [trackSeeds, Track.Seed, ht, if_false]
      apply ih
      obtain ⟨u, hu, hid⟩ := h
      rcases List.mem_cons.mp hu with rfl | hu
      · exact absurd hid ht
      · exact ⟨u, hu, hid⟩

theorem artistSeeds_error (ts : List Artist) (sds : Slice Seed) (h : ∃ t ∈ ts, t.ID = "") :
    artistSeeds ts sds = Except.error Error.errArtistSeed := by
  induction ts generalizing sds with
  | nil => simp at h
  | cons t ts ih =>
    by_cases ht : t.ID = ""
    · simp [artistSeeds, Artist.Seed, ht]
    · simp only [artistSeeds, Artist.Seed, ht, if_false]
      apply ih
      obtain ⟨u, hu, hid⟩ := h
      rcases List.mem_cons.mp hu with rfl | hu
      · exact absurd hid ht
      · exact ⟨u, hu, hid⟩

theorem Tracklist_recent_fail {σ : Type} (serv : MusicService σ)
    (rec_ : Option (Recommender σ)) (n : Int) (hn : 0 < n) (s : σ) (e : Error)
    (h1 : (serv.RecentTracks s).1.2 = some e) :
    generator.Tracklist ⟨some serv, rec_⟩ n s =
      some ⟨(Slice.nil, some (Error.wrap e "cannot fetch recent tracks")),
        (serv.RecentTracks s).2, [Call.RecentTracks (serv.RecentTracks s).1]⟩ := by
  simp only [generator.Tracklist, not_le.mpr hn, if_false, h1]

theorem Tracklist_seed_fail {σ : Type} (serv : MusicService σ)
    (rec_ : Option (Recommender σ)) (n : Int) (hn : 0 < n) (s : σ) (e : Error)
    (h1 : (serv.RecentTracks s).1.2 = none)
    (h2 : trackSeeds (serv.RecentTracks s).1.1.toList Slice.nil = Except.error e) :
    generator.Tracklist ⟨some serv, rec_⟩ n s =
      some ⟨(Slice.nil, some (Error.wrap e "one or more tracks are invalid seeds")),
        (serv.RecentTracks s).2, [Call.RecentTracks (serv.RecentTracks s).1]⟩ := by
  simp only [generator.Tracklist, not_le.mpr hn, if_false, h1, h2]

theorem Tracklist_rec_fail {σ : Type} (serv : MusicService σ) (rc : Recommender σ)
    (n : Int) (hn : 0 < n) (s : σ) (sds : Slice Seed) (e : Error)
    (h1 : (serv.RecentTracks s).1.2 = none)
    (h2 : trackSeeds (serv.RecentTracks s).1.1.toList Slice.nil = Except.ok sds)
    (h3 : (rc.Recommendations n sds (serv.RecentTracks s).2).1.2 = some e) :
    generator.Tracklist ⟨some serv, some rc⟩ n s =
      some ⟨(Slice.nil, some (Error.wrap e "cannot fetch recommendations")),
        (rc.Recommendations n sds (serv.RecentTracks s).2).2,
        [Call.RecentTracks (serv.RecentTracks s).1,
          Call.Recommendations n sds (rc.Recommendations n sds (serv.RecentTracks s).2).1]⟩ := by
  simp only [generator.Tracklist, not_le.mpr hn, if_false, h1, h2, h3]

theorem Tracklist_top_fail {σ : Type} (serv : MusicService σ) (rc : Recommender σ)
    (n : Int) (hn : 0 < n) (s : σ) (sds : Slice Seed) (e : Error)
    (h1 : (serv.RecentTracks s).1.2 = none)
    (h2 : trackSeeds (serv.RecentTracks s).1.1.toList Slice.nil = Except.ok sds)
    (h3 : (rc.Recommendations n sds (serv.RecentTracks s).2).1.2 = none)
    (h4 : (serv.TopArtists (rc.Recommendations n sds (serv.RecentTracks s).2).2).1.2 = some e) :
    generator.Tracklist ⟨some serv, some rc⟩ n s =
      some ⟨(Slice.nil, some (Error.wrap e "cannot fetch top artists")),
        (serv.TopArtists (rc.Recommendations n sds (serv.RecentTracks s).2).2).2,
        [Call.RecentTracks (serv.RecentTracks s).1,
          Call.Recommendations n sds (rc.Recommendations n sds (serv.RecentTracks s).2).1,
          Call.TopArtists
            (serv.TopArtists (rc.Recommendations n sds (serv.RecentTracks s).2).2).1]⟩ := by
  simp only [generator.Tracklist, not_le.mpr hn, if_false, h1, h2, h3, h4]

theorem Tracklist_ok {σ : Type} (serv : MusicService σ) (rc : Recommender σ)
    (n : Int) (hn : 0 < n) (s : σ) (sds : Slice Seed)
    (h1 : (serv.RecentTracks s).1.2 = none)
    (h2 : trackSeeds (serv.RecentTracks s).1.1.toList Slice.nil = Except.ok sds)
    (h3 : (rc.Recommendations n sds (serv.RecentTracks s).2).1.2 = none)
    (h4 : (serv.TopArtists (rc.Recommendations n sds (serv.RecentTracks s).2).2).1.2 = none) :
    ∃ m f,
      toMap (serv.TopArtists (rc.Recommendations n sds (serv.RecentTracks s).2).2).1.1
        = some m ∧
      filter (rc.Recommendations n sds (serv.RecentTracks s).2).1.1 m = some f ∧
      generator.Tracklist ⟨some serv, some rc⟩ n s =
        some ⟨(f.1, none),
          (serv.TopArtists (rc.Recommendations n sds (serv.RecentTracks s).2).2).2,
          [Call.RecentTracks (serv.RecentTracks s).1,
            Call.Recommendations n sds (rc.Recommendations n sds (serv.RecentTracks s).2).1,
            Call.TopArtists
              (serv.TopArtists (rc.Recommendations n sds (serv.RecentTracks s).2).2).1]⟩ := by
  obtain ⟨m, f, hm, hf, _⟩ := filter_toMap_returns
    (rc.Recommendations n sds (serv.RecentTracks s).2).1.1
    (serv.TopArtists (rc.Recommendations n sds (serv.RecentTracks s).2).2).1.1
  refine ⟨m, f, hm, hf, ?_⟩
  simp only [generator.Tracklist, not_le.mpr hn, if_false, h1, h2, h3, h4, hm, hf]

theorem LimitedTracklist_top_fail {σ : Type} (serv : MusicService σ)
    (rec_ : Option (Recommender σ)) (n : Int) (hn : 0 < n) (s : σ) (e : Error)
    (h1 : (serv.TopArtists s).1.2 = some e) :
    generator.LimitedTracklist ⟨some serv, rec_⟩ n s =
      some ⟨(Slice.nil, some (Error.wrap e "cannot fetch top artists")),
        (serv.TopArtists s).2, [Call.TopArtists (serv.TopArtists s).1]⟩ := by
  simp only [generator.LimitedTracklist, not_le.mpr hn, if_false, h1]

theorem LimitedTracklist_seed_fail {σ : Type} (serv : MusicService σ)
    (rec_ : Option (Recommender σ)) (n : Int) (hn : 0 < n) (s : σ) (e : Error)
    (h1 : (serv.TopArtists s).1.2 = none)
    (h2 : artistSeeds (serv.TopArtists s).1.1.toList Slice.nil = Except.error e) :
    generator.LimitedTracklist ⟨some serv, rec_⟩ n s =
      some ⟨(Slice.nil, some (Error.wrap e "one or more artists are invalid seeds")),
        (serv.TopArtists s).2, [Call.TopArtists (serv.TopArtists s).1]⟩ := by
  simp only [generator.LimitedTracklist, not_le.mpr hn, if_false, h1, h2]

theorem LimitedTracklist_rec_fail {σ : Type} (serv : MusicService σ) (rc : Recommender σ)
    (n : Int) (hn : 0 < n) (s : σ) (sds : Slice Seed) (e : Error)
    (h1 : (serv.TopArtists s).1.2 = none)
    (h2 : artistSeeds (serv.TopArtists s).1.1.toList Slice.nil = Except.ok sds)
    (h3 : (rc.Recommendations n sds (serv.TopArtists s).2).1.2 = some e) :
    generator.LimitedTracklist ⟨some serv, some rc⟩ n s =
      some ⟨(Slice.nil, some (Error.wrap e "cannot fetch recommendations")),
        (rc.Recommendations n sds (serv.TopArtists s).2).2,
        [Call.TopArtists (serv.TopArtists s).1,
          Call.Recommendations n sds (rc.Recommendations n sds (serv.TopArtists s).2).1]⟩ := by
  simp only [generator.LimitedTracklist, not_le.mpr hn, if_false, h1, h2, h3]

theorem LimitedTracklist_ok {σ : Type} (serv : MusicService σ) (rc : Recommender σ)
    (n : Int) (hn : 0 < n) (s : σ) (sds : Slice Seed)
    (h1 : (serv.TopArtists s).1.2 = none)
    (h2 : artistSeeds (serv.TopArtists s).1.1.toList Slice.nil = Except.ok sds)
    (h3 : (rc.Recommendations n sds (serv.TopArtists s).2).1.2 = none) :
    ∃ m f,
      toMap (serv.TopArtists s).1.1 = some m ∧
      filter (rc.Recommendations n sds (serv.TopArtists s).2).1.1 m = some f ∧
      generator.LimitedTracklist ⟨some serv, some rc⟩ n s =
        some ⟨(f.1, none), (rc.Recommendations n sds (serv.TopArtists s).2).2,
          [Call.TopArtists (serv.TopArtists s).1,
            Call.Recommendations n sds
              (rc.Recommendations n sds (serv.TopArtists s).2).1]⟩ := by
  obtain ⟨m, f, hm, hf, _⟩ := filter_toMap_returns
    (rc.Recommendations n sds (serv.TopArtists s).2).1.1 (serv.TopArtists s).1.1
  refine ⟨m, f, hm, hf, ?_⟩
  simp only [generator.LimitedTracklist, not_le.mpr hn, if_false, h1, h2, h3, hm, hf]

/-! ## The claims on the generator paths -/

/-- C11: for every `n > 0`, if the recent-tracks list (for `Tracklist`) or the
top-artists list (for `LimitedTracklist`) is fetched without error but holds an
entity whose identifier is empty, the call returns the nil slice and the seed
error of that entity kind wrapped once, so that its `Cause` is the seed error,
whatever the other entities of the list are; the fetch is the only collaborator
call, so the recommender is never invoked (it may even be nil). -/
theorem tracklists_invalid_seed {σ : Type} (serv : MusicService σ)
    (rec_ : Option (Recommender σ)) (n : Int) (hn : 0 < n) (s : σ) :
    ((serv.RecentTracks s).1.2 = none →
      (∃ t ∈ (serv.RecentTracks s).1.1.toList, t.ID = "") →
      ∃ o e, generator.Tracklist ⟨some serv, rec_⟩ n s = some o ∧
        o.ret = (Slice.nil, some e) ∧
        e = Error.wrap Error.errTrackSeed "one or more tracks are invalid seeds" ∧
        e.Cause = Error.errTrackSeed ∧
        o.calls = [Call.RecentTracks (serv.RecentTracks s).1] ∧
        ∀ c ∈ o.calls, c.isRecommendations = false) ∧
    ((serv.TopArtists s).1.2 = none →
      (∃ a ∈ (serv.TopArtists s).1.1.toList, a.ID = "") →
      ∃ o e, generator.LimitedTracklist ⟨some serv, rec_⟩ n s = some o ∧
        o.ret = (Slice.nil, some e) ∧
        e = Error.wrap Error.errArtistSeed "one or more artists are invalid seeds" ∧
        e.Cause = Error.errArtistSeed ∧
        o.calls = [Call.TopArtists (serv.TopArtists s).1] ∧
        ∀ c ∈ o.calls, c.isRecommendations = false) := by
  constructor
  · intro h1 hbad
    refine ⟨_, _, Tracklist_seed_fail serv rec_ n hn s _ h1 (trackSeeds_error _ _ hbad),
      rfl, rfl, rfl, rfl, ?_⟩
    intro c hc
    rw [List.mem_singleton] at hc
    subst hc
    rfl
  · intro h1 hbad
    refine ⟨_, _, LimitedTracklist_seed_fail serv rec_ n hn s _ h1
      (artistSeeds_error _ _ hbad), rfl, rfl, rfl, rfl, ?_⟩
    intro c hc
    rw [List.mem_singleton] at hc
    subst hc
    rfl

/-- Witness of C11: the cases `Invalid track seed` and `Invalid artist seed` of
the tests; in the second one the first artist `foo` is a valid seed. -/
theorem tracklists_invalid_seed_witness :
    (0 : Int) < testTotal ∧
    (∃ o e, testGenTrackSeed.Tracklist testTotal () = some o ∧
      o.ret = (Slice.nil, some e) ∧
      e = Error.wrap Error.errTrackSeed "one or more tracks are invalid seeds" ∧
      e.Cause = Error.errTrackSeed ∧
      o.calls = [Call.RecentTracks (Slice.mk [⟨"", "baz", ⟨"0", "foo"⟩⟩], none)] ∧
      ∀ c ∈ o.calls, c.isRecommendations = false) ∧
    (∃ o e, testGenArtistSeed.LimitedTracklist testTotal () = some o ∧
      o.ret = (Slice.nil, some e) ∧
      e = Error.wrap Error.errArtistSeed "one or more artists are invalid seeds" ∧
      e.Cause = Error.errArtistSeed ∧
      o.calls = [Call.TopArtists (Slice.mk [⟨"0", "foo"⟩, ⟨"", "bar"⟩], none)] ∧
      ∀ c ∈ o.calls, c.isRecommendations = false) :=
  ⟨by decide,
    (tracklists_invalid_seed
      (fakeMusicService testArtists none (Slice.mk [⟨"", "baz", ⟨"0", "foo"⟩⟩]) none)
      (some (fakeRecommender Slice.nil none)) testTotal (by decide) ()).1 rfl (by decide),
    (tracklists_invalid_seed
      (fakeMusicService (Slice.mk [⟨"0", "foo"⟩, ⟨"", "bar"⟩]) none Slice.nil none)
      (some (fakeRecommender Slice.nil none)) testTotal (by decide) ()).2 rfl (by decide)⟩

/-- C12: for every `n > 0`, when the recent-tracks fetch, the seed derivation
of every recent track (giving the seeds `sds`), the recommendation request and
the top-artists fetch all succeed, `Tracklist(n)` returns with a nil error the
slice that `filter(recs, toMap(top))` returns, after the three collaborator
calls in that order. In the case `Valid responses` of the tests (top artists
`foo` and `bar`, recent track `baz` by `foo`, recommended track `qux` with
unset artist) `Tracklist(30)` returns the slice holding `qux` and a nil
error. -/
theorem Tracklist_success :
    (∀ (σ : Type) (serv : MusicService σ) (rc : Recommender σ) (n : Int) (s : σ)
        (sds : Slice Seed),
      0 < n →
      (serv.RecentTracks s).1.2 = none →
      trackSeeds (serv.RecentTracks s).1.1.toList Slice.nil = Except.ok sds →
      (rc.Recommendations n sds (serv.RecentTracks s).2).1.2 = none →
      (serv.TopArtists (rc.Recommendations n sds (serv.RecentTracks s).2).2).1.2 = none →
      ∃ m f,
        toMap (serv.TopArtists (rc.Recommendations n sds (serv.RecentTracks s).2).2).1.1
          = some m ∧
        filter (rc.Recommendations n sds (serv.RecentTracks s).2).1.1 m = some f ∧
        generator.Tracklist ⟨some serv, some rc⟩ n s =
          some ⟨(f.1, none),
            (serv.TopArtists (rc.Recommendations n sds (serv.RecentTracks s).2).2).2,
            [Call.RecentTracks (serv.RecentTracks s).1,
              Call.Recommendations n sds
                (rc.Recommendations n sds (serv.RecentTracks s).2).1,
              Call.TopArtists
                (serv.TopArtists (rc.Recommendations n sds (serv.RecentTracks s).2).2).1]⟩) ∧
    (testGenValid.Tracklist 30 ()).map (fun o => o.ret) = some (Slice.mk [testQux], none) :=
  ⟨fun _ serv rc n s sds hn h1 h2 h3 h4 => Tracklist_ok serv rc n hn s sds h1 h2 h3 h4,
    by decide⟩

/-- Witness of C12: the hypotheses hold in the case `Valid responses`, where the
seeds are the one seed of the track `baz`. -/
theorem Tracklist_success_witness :
    ∃ m f, toMap testArtists = some m ∧ filter (Slice.mk [testQux]) m = some f ∧
      testGenValid.Tracklist testTotal () =
        some ⟨(f.1, none), (),
          [Call.RecentTracks (testRecent, none),
            Call.Recommendations testTotal (Slice.mk [⟨SeedKind.track, "10"⟩])
              (Slice.mk [testQux], none),
            Call.TopArtists (testArtists, none)]⟩ :=
  Tracklist_success.1 Unit (fakeMusicService testArtists none testRecent none)
    (fakeRecommender (Slice.mk [testQux]) none) testTotal ()
    (Slice.mk [⟨SeedKind.track, "10"⟩]) (by decide) rfl (by rfl) rfl rfl

/-- The five ways `Tracklist` ends for `n > 0` and non-nil collaborators. -/
theorem Tracklist_cases {σ : Type} (serv : MusicService σ) (rc : Recommender σ)
    (n : Int) (hn : 0 < n) (s : σ) :
    ∃ o, generator.Tracklist ⟨some serv, some rc⟩ n s = some o ∧
      ((∃ r1 e, r1.2 = some e ∧ o.calls = [Call.RecentTracks r1] ∧
          o.ret = (Slice.nil, some (Error.wrap e "cannot fetch recent tracks"))) ∨
        (∃ r1 e, r1.2 = none ∧ o.calls = [Call.RecentTracks r1] ∧
          o.ret = (Slice.nil, some (Error.wrap e "one or more tracks are invalid seeds"))) ∨
        (∃ r1 sds r2 e, r1.2 = none ∧ r2.2 = some e ∧
          o.calls = [Call.RecentTracks r1, Call.Recommendations n sds r2] ∧
          o.ret = (Slice.nil, some (Error.wrap e "cannot fetch recommendations"))) ∨
        (∃ r1 sds r2 r3 e, r1.2 = none ∧ r2.2 = none ∧ r3.2 = some e ∧
          o.calls = [Call.RecentTracks r1, Call.Recommendations n sds r2,
            Call.TopArtists r3] ∧
          o.ret = (Slice.nil, some (Error.wrap e "cannot fetch top artists"))) ∨
        (∃ r1 sds r2 r3, r1.2 = none ∧ r2.2 = none ∧ r3.2 = none ∧
          o.calls = [Call.RecentTracks r1, Call.Recommendations n sds r2,
            Call.TopArtists r3] ∧
          o.ret.2 = none)) := by
  cases h1 : (serv.RecentTracks s).1.2 with
  | some e =>
    exact ⟨_, Tracklist_recent_fail serv _ n hn s e h1, Or.inl ⟨_, e, h1, rfl, rfl⟩⟩
  | none =>
    cases h2 : trackSeeds (serv.RecentTracks s).1.1.toList Slice.nil with
    | error e =>
      exact ⟨_, Tracklist_seed_fail serv _ n hn s e h1 h2,
        Or.inr (Or.inl ⟨_, e, h1, rfl, rfl⟩)⟩
    | ok sds =>
      cases h3 : (rc.Recommendations n sds (serv.RecentTracks s).2).1.2 with
      | some e =>
        exact ⟨_, Tracklist_rec_fail serv rc n hn s sds e h1 h2 h3,
          Or.inr (Or.inr (Or.inl ⟨_, sds, _, e, h1, h3, rfl, rfl⟩))⟩
      | none =>
        cases h4 : (serv.TopArtists
            (rc.Recommendations n sds (serv.RecentTracks s).2).2).1.2 with
        | some e =>
          exact ⟨_, Tracklist_top_fail serv rc n hn s sds e h1 h2 h3 h4,
            Or.inr (Or.inr (Or.inr (Or.inl ⟨_, sds, _, _, e, h1, h3, h4, rfl, rfl⟩)))⟩
        | none =>
          obtain ⟨m, f, _, _, ht⟩ := Tracklist_ok serv rc n hn s sds h1 h2 h3 h4
          exact ⟨_, ht,
            Or.inr (Or.inr (Or.inr (Or.inr ⟨_, sds, _, _, h1, h3, h4, rfl, rfl⟩)))⟩

/-- The four ways `LimitedTracklist` ends for `n > 0` and non-nil
collaborators; the top-artists fetch is the first call, made in the initial
state. -/
theorem LimitedTracklist_cases {σ : Type} (serv : MusicService σ) (rc : Recommender σ)
    (n : Int) (hn : 0 < n) (s : σ) :
    ∃ o, generator.LimitedTracklist ⟨some serv, some rc⟩ n s = some o ∧
      ((∃ e, (serv.TopArtists s).1.2 = some e ∧
          o.calls = [Call.TopArtists (serv.TopArtists s).1] ∧
          o.ret = (Slice.nil, some (Error.wrap e "cannot fetch top artists"))) ∨
        (∃ e, (serv.TopArtists s).1.2 = none ∧
          o.calls = [Call.TopArtists (serv.TopArtists s).1] ∧
          o.ret = (Slice.nil, some (Error.wrap e "one or more artists are invalid seeds"))) ∨
        (∃ sds r2 e, (serv.TopArtists s).1.2 = none ∧ r2.2 = some e ∧
          o.calls = [Call.TopArtists (serv.TopArtists s).1,
            Call.Recommendations n sds r2] ∧
          o.ret = (Slice.nil, some (Error.wrap e "cannot fetch recommendations"))) ∨
        (∃ sds r2, (serv.TopArtists s).1.2 = none ∧ r2.2 = none ∧
          o.calls = [Call.TopArtists (serv.TopArtists s).1,
            Call.Recommendations n sds r2] ∧
          o.ret.2 = none)) := by
  cases h1 : (serv.TopArtists s).1.2 with
  | some e =>
    exact ⟨_, LimitedTracklist_top_fail serv _ n hn s e h1, Or.inl ⟨e, rfl, rfl, rfl⟩⟩
  | none =>
    cases h2 : artistSeeds (serv.TopArtists s).1.1.toList Slice.nil with
    | error e =>
      exact ⟨_, LimitedTracklist_seed_fail serv _ n hn s e h1 h2,
        Or.inr (Or.inl ⟨e, rfl, rfl, rfl⟩)⟩
    | ok sds =>
      cases h3 : (rc.Recommendations n sds (serv.TopArtists s).2).1.2 with
      | some e =>
        exact ⟨_, LimitedTracklist_rec_fail serv rc n hn s sds e h1 h2 h3,
          Or.inr (Or.inr (Or.inl ⟨sds, _, e, rfl, h3, rfl, rfl⟩))⟩
      | none =>
        obtain ⟨m, f, _, _, ht⟩ := LimitedTracklist_ok serv rc n hn s sds h1 h2 h3
        exact ⟨_, ht, Or.inr (Or.inr (Or.inr ⟨sds, _, rfl, h3, rfl, rfl⟩))⟩

/-- C13: for every `n > 0`, `LimitedTracklist(n)` returns after exactly one
top-artists fetch, made in the initial state; when that fetch, the seed
derivation of every artist of the fetched list (giving the seeds `sds`) and the
recommendation request succeed, the recommender was called with the seeds of
that list and the call returns, with a nil error, the slice that
`filter(recs, toMap(top))` returns for that same list. With top artists `foo`
and `bar` and recommended tracks by `foo`, `garply`, `foo`, `fred`, the result
is the `garply` track followed by the `fred` track. -/
theorem Limited_fetches_once :
    (∀ (σ : Type) (serv : MusicService σ) (rc : Recommender σ) (n : Int) (s : σ),
      0 < n →
      (∃ o, generator.LimitedTracklist ⟨some serv, some rc⟩ n s = some o ∧
        o.calls.filter Call.isTopArtists = [Call.TopArtists (serv.TopArtists s).1]) ∧
      (∀ sds : Slice Seed,
        (serv.TopArtists s).1.2 = none →
        artistSeeds (serv.TopArtists s).1.1.toList Slice.nil = Except.ok sds →
        (rc.Recommendations n sds (serv.TopArtists s).2).1.2 = none →
        ∃ m f,
          toMap (serv.TopArtists s).1.1 = some m ∧
          filter (rc.Recommendations n sds (serv.TopArtists s).2).1.1 m = some f ∧
          generator.LimitedTracklist ⟨some serv, some rc⟩ n s =
            some ⟨(f.1, none), (rc.Recommendations n sds (serv.TopArtists s).2).2,
              [Call.TopArtists (serv.TopArtists s).1,
                Call.Recommendations n sds
                  (rc.Recommendations n sds (serv.TopArtists s).2).1]⟩)) ∧
    (testGen.LimitedTracklist 30 ()).map (fun o => o.ret) =
      some (Slice.mk [⟨"22", "quux", ⟨"12", "garply"⟩⟩, ⟨"24", "waldo", ⟨"14", "fred"⟩⟩],
        none) := by
  refine ⟨fun σ serv rc n s hn => ⟨?_, ?_⟩, by decide⟩
  · obtain ⟨o, ho, hc⟩ := LimitedTracklist_cases serv rc n hn s
    refine ⟨o, ho, ?_⟩
    rcases hc with ⟨e, _, hcalls, _⟩ | ⟨e, _, hcalls, _⟩ | ⟨sds, r2, e, _, _, hcalls, _⟩ |
      ⟨sds, r2, _, _, hcalls, _⟩ <;> rw [hcalls] <;> rfl
  · intro sds h1 h2 h3
    exact LimitedTracklist_ok serv rc n hn s sds h1 h2 h3

/-- Witness of C13: the hypotheses hold for the test doubles with top artists
`foo` and `bar`, whose seeds are passed to the recommender. -/
theorem Limited_fetches_once_witness :
    (∃ o, testGen.LimitedTracklist testTotal () = some o ∧
      o.calls.filter Call.isTopArtists = [Call.TopArtists (testArtists, none)]) ∧
    ∃ m f, toMap testArtists = some m ∧ filter testRecs m = some f ∧
      testGen.LimitedTracklist testTotal () =
        some ⟨(f.1, none), (),
          [Call.TopArtists (testArtists, none),
            Call.Recommendations testTotal
              (Slice.mk [⟨SeedKind.artist, "0"⟩, ⟨SeedKind.artist, "1"⟩])
              (testRecs, none)]⟩ :=
  ⟨(Limited_fetches_once.1 Unit (fakeMusicService testArtists none testRecent none)
      (fakeRecommender testRecs none) testTotal () (by decide)).1,
    (Limited_fetches_once.1 Unit (fakeMusicService testArtists none testRecent none)
      (fakeRecommender testRecs none) testTotal () (by decide)).2
      (Slice.mk [⟨SeedKind.artist, "0"⟩, ⟨SeedKind.artist, "1"⟩]) rfl (by rfl) rfl⟩

/-- C14: for every `n > 0`, in a call of `Tracklist(n)` or of
`LimitedTracklist(n)` whose top-artists fetch returns an error `e`, the result
is the nil slice and `e` wrapped as `cannot fetch top artists`, an error with
the same `Cause` as `e`; in `LimitedTracklist` the recommender is then not
invoked. -/
theorem tracklists_top_artists_failure {σ : Type} (serv : MusicService σ)
    (rc : Recommender σ) (n : Int) (hn : 0 < n) (s : σ) :
    (∃ o, generator.Tracklist ⟨some serv, some rc⟩ n s = some o ∧
      ∀ top e, Call.TopArtists (top, some e) ∈ o.calls →
        o.ret = (Slice.nil, some (Error.wrap e "cannot fetch top artists")) ∧
        (Error.wrap e "cannot fetch top artists").Cause = e.Cause) ∧
    (∃ o, generator.LimitedTracklist ⟨some serv, some rc⟩ n s = some o ∧
      ∀ top e, Call.TopArtists (top, some e) ∈ o.calls →
        o.ret = (Slice.nil, some (Error.wrap e "cannot fetch top artists")) ∧
        (Error.wrap e "cannot fetch top artists").Cause = e.Cause ∧
        ∀ c ∈ o.calls, c.isRecommendations = false) := by
  constructor
  · obtain ⟨o, ho, hc⟩ := Tracklist_cases serv rc n hn s
    refine ⟨o, ho, ?_⟩
    intro top e hmem
    rcases hc with ⟨r1, e1, _, hcalls, _⟩ | ⟨r1, e1, _, hcalls, _⟩ |
      ⟨r1, sds, r2, e1, _, _, hcalls, _⟩ | ⟨r1, sds, r2, r3, e1, _, _, h3, hcalls, hret⟩ |
      ⟨r1, sds, r2, r3, _, _, h3, hcalls, _⟩
    · simp [hcalls] at hmem
    · simp [hcalls] at hmem
    · simp [hcalls] at hmem
    · simp only [hcalls, List.mem_cons, List.mem_singleton, Call.TopArtists.injEq,
        List.mem_nil_iff, or_false, false_or, reduceCtorEq] at hmem
      rw [← hmem] at h3
      simp only [Option.some.injEq] at h3
      subst h3
      exact ⟨hret, rfl⟩
    · simp only [hcalls, List.mem_cons, List.mem_singleton, Call.TopArtists.injEq,
        List.mem_nil_iff, or_false, false_or, reduceCtorEq] at hmem
      rw [← hmem] at h3
      exact Option.noConfusion h3
  · obtain ⟨o, ho, hc⟩ := LimitedTracklist_cases serv rc n hn s
    refine ⟨o, ho, ?_⟩
    intro top e hmem
    rcases hc with ⟨e1, h1, hcalls, hret⟩ | ⟨e1, h1, hcalls, _⟩ |
      ⟨sds, r2, e1, h1, _, hcalls, _⟩ | ⟨sds, r2, h1, _, hcalls, _⟩
    · simp only [hcalls, List.mem_singleton, Call.TopArtists.injEq] at hmem
      rw [← hmem] at h1
      simp only [Option.some.injEq] at h1
      subst h1
      refine ⟨hret, rfl, ?_⟩
      intro c hc
      rw [hcalls, List.mem_singleton] at hc
      subst hc
      rfl
    · simp only [hcalls, List.mem_singleton, Call.TopArtists.injEq] at hmem
      rw [← hmem] at h1
      exact Option.noConfusion h1
    · simp only [hcalls, List.mem_cons, List.mem_singleton, Call.TopArtists.injEq,
        List.mem_nil_iff, or_false, reduceCtorEq] at hmem
      rw [← hmem] at h1
      exact Option.noConfusion h1
    · simp only [hcalls, List.mem_cons, List.mem_singleton, Call.TopArtists.injEq,
        List.mem_nil_iff, or_false, reduceCtorEq] at hmem
      rw [← hmem] at h1
      exact Option.noConfusion h1

/-- Witness of C14: the case `Empty top artists response` of the tests, where
the top-artists fetch fails with `testErrFetchArtists`. -/
theorem tracklists_top_artists_failure_witness :
    (0 : Int) < testTotal ∧
    (testGenTopFail.Tracklist testTotal ()).map (fun o => (o.ret, o.calls)) =
      some ((Slice.nil, some (Error.wrap testErrFetchArtists "cannot fetch top artists")),
        [Call.RecentTracks (testRecent, none),
          Call.Recommendations testTotal (Slice.mk [⟨SeedKind.track, "10"⟩])
            (Slice.nil, none),
          Call.TopArtists (Slice.nil, some testErrFetchArtists)]) ∧
    (testGenTopFail.LimitedTracklist testTotal ()).map (fun o => (o.ret, o.calls)) =
      some ((Slice.nil, some (Error.wrap testErrFetchArtists "cannot fetch top artists")),
        [Call.TopArtists (Slice.nil, some testErrFetchArtists)]) ∧
    ((∃ o, testGenTopFail.Tracklist testTotal () = some o ∧
      ∀ top e, Call.TopArtists (top, some e) ∈ o.calls →
        o.ret = (Slice.nil, some (Error.wrap e "cannot fetch top artists")) ∧
        (Error.wrap e "cannot fetch top artists").Cause = e.Cause) ∧
    (∃ o, testGenTopFail.LimitedTracklist testTotal () = some o ∧
      ∀ top e, Call.TopArtists (top, some e) ∈ o.calls →
        o.ret = (Slice.nil, some (Error.wrap e "cannot fetch top artists")) ∧
        (Error.wrap e "cannot fetch top artists").Cause = e.Cause ∧
        ∀ c ∈ o.calls, c.isRecommendations = false)) :=
  ⟨by decide, by decide, by decide,
    tracklists_top_artists_failure
      (fakeMusicService Slice.nil (some testErrFetchArtists) testRecent none)
      (fakeRecommender Slice.nil none) testTotal (by decide) ()⟩

/-- Shape of the trace of `Tracklist` for `n > 0`: the calls are `RecentTracks`,
then possibly `Recommendations`, then possibly `TopArtists`; every call but the
last returned a nil error, and an error of the last call is returned wrapped
under the phrase of its step. -/
theorem Tracklist_trace_shape {σ : Type} (serv : MusicService σ) (rc : Recommender σ)
    (n : Int) (hn : 0 < n) (s : σ) :
    ∃ o, generator.Tracklist ⟨some serv, some rc⟩ n s = some o ∧
      (∃ r1 sds r2 r3, o.calls = [Call.RecentTracks r1] ∨
        o.calls = [Call.RecentTracks r1, Call.Recommendations n sds r2] ∨
        o.calls = [Call.RecentTracks r1, Call.Recommendations n sds r2,
          Call.TopArtists r3]) ∧
      (∀ c ∈ o.calls.dropLast, c.err = none) ∧
      (∀ c e, o.calls.getLast? = some c → c.err = some e →
        o.ret = (Slice.nil, some (Error.wrap e c.phrase)) ∧
        (Error.wrap e c.phrase).Cause = e.Cause) ∧
      (∀ top e, Call.TopArtists (top, some e) ∈ o.calls →
        ∃ r1 sds recs, o.calls = [Call.RecentTracks (r1, none),
          Call.Recommendations n sds (recs, none), Call.TopArtists (top, some e)]) ∧
      (∀ k sds recs e, Call.Recommendations k sds (recs, some e) ∈ o.calls →
        o.ret = (Slice.nil, some (Error.wrap e "cannot fetch recommendations")) ∧
        ∀ c ∈ o.calls, c.isTopArtists = false) := by
  obtain ⟨o, ho, hc⟩ := Tracklist_cases serv rc n hn s
  refine ⟨o, ho, ?_⟩
  obtain ⟨ret, st, calls⟩ := o
  simp only at hc ⊢
  rcases hc with ⟨r1, e1, h1, hcalls, hret⟩ | ⟨r1, e1, h1, hcalls, hret⟩ |
    ⟨r1, sds, r2, e1, h1, h2, hcalls, hret⟩ |
    ⟨r1, sds, r2, r3, e1, h1, h2, h3, hcalls, hret⟩ |
    ⟨r1, sds, r2, r3, h1, h2, h3, hcalls, hret⟩
  · subst hcalls hret
    refine ⟨⟨r1, Slice.nil, (Slice.nil, none), (Slice.nil, none), Or.inl rfl⟩, ?_, ?_, ?_, ?_⟩
    · simp
    · intro c e hc he
      simp only [List.getLast?_singleton, Option.some.injEq] at hc
      subst hc
      simp only [Call.err, h1, Option.some.injEq] at he
      subst he
      exact ⟨rfl, rfl⟩
    · intro top e hmem
      simp at hmem
    · intro k sds recs e hmem
      simp at hmem
  · subst hcalls hret
    refine ⟨⟨r1, Slice.nil, (Slice.nil, none), (Slice.nil, none), Or.inl rfl⟩, ?_, ?_, ?_, ?_⟩
    · simp
    · intro c e hc he
      simp only [List.getLast?_singleton, Option.some.injEq] at hc
      subst hc
      simp [Call.err, h1] at he
    · intro top e hmem
      simp at hmem
    · intro k sds recs e hmem
      simp at hmem
  · subst hcalls hret
    refine ⟨⟨r1, sds, r2, (Slice.nil, none), Or.inr (Or.inl rfl)⟩, ?_, ?_, ?_, ?_⟩
    · intro c hc
      simp only [List.dropLast, List.mem_singleton] at hc
      subst hc
      exact h1
    · intro c e hc he
      simp only [List.getLast?_cons_cons, List.getLast?_singleton, Option.some.injEq] at hc
      subst hc
      simp only [Call.err, h2, Option.some.injEq] at he
      subst he
      exact ⟨rfl, rfl⟩
    · intro top e hmem
      simp at hmem
    · intro k sds1 recs e hmem
      simp only [List.mem_cons, List.mem_singleton, Call.Recommendations.injEq,
        List.mem_nil_iff, or_false, false_or, reduceCtorEq] at hmem
      obtain ⟨_, _, hr⟩ := hmem
      rw [← hr] at h2
      simp only [Option.some.injEq] at h2
      subst h2
      refine ⟨rfl, ?_⟩
      intro c hc
      simp only [List.mem_cons, List.mem_singleton, List.mem_nil_iff, or_false] at hc
      rcases hc with rfl | rfl <;> rfl
  · subst hcalls hret
    refine ⟨⟨r1, sds, r2, r3, Or.inr (Or.inr rfl)⟩, ?_, ?_, ?_, ?_⟩
    · intro c hc
      simp only [List.dropLast, List.mem_cons, List.mem_singleton, List.mem_nil_iff,
        or_false] at hc
      rcases hc with rfl | rfl
      · exact h1
      · exact h2
    · intro c e hc he
      simp only [List.getLast?_cons_cons, List.getLast?_singleton, Option.some.injEq] at hc
      subst hc
      simp only [Call.err, h3, Option.some.injEq] at he
      subst he
      exact ⟨rfl, rfl⟩
    · intro top e hmem
      simp only [List.mem_cons, List.mem_singleton, Call.TopArtists.injEq,
        List.mem_nil_iff, or_false, false_or, reduceCtorEq] at hmem
      subst hmem
      refine ⟨r1.1, sds, r2.1, ?_⟩
      have e1 : r1 = (r1.1, none) := Prod.ext rfl h1
      have e2 : r2 = (r2.1, none) := Prod.ext rfl h2
      rw [← e1, ← e2]
    · intro k sds1 recs e hmem
      simp only [List.mem_cons, List.mem_singleton, Call.Recommendations.injEq,
        List.mem_nil_iff, or_false, false_or, reduceCtorEq] at hmem
      obtain ⟨_, _, hr⟩ := hmem
      rw [← hr] at h2
      exact Option.noConfusion h2
  · subst hcalls
    refine ⟨⟨r1, sds, r2, r3, Or.inr (Or.inr rfl)⟩, ?_, ?_, ?_, ?_⟩
    · intro c hc
      simp only [List.dropLast, List.mem_cons, List.mem_singleton, List.mem_nil_iff,
        or_false] at hc
      rcases hc with rfl | rfl
      · exact h1
      · exact h2
    · intro c e hc he
      simp only [List.getLast?_cons_cons, List.getLast?_singleton, Option.some.injEq] at hc
      subst hc
      simp [Call.err, h3] at he
    · intro top e hmem
      simp only [List.mem_cons, List.mem_singleton, Call.TopArtists.injEq,
        List.mem_nil_iff, or_false, false_or, reduceCtorEq] at hmem
      rw [← hmem] at h3
      exact Option.noConfusion h3
    · intro k sds1 recs e hmem
      simp only [List.mem_cons, List.mem_singleton, Call.Recommendations.injEq,
        List.mem_nil_iff, or_false, false_or, reduceCtorEq] at hmem
      obtain ⟨_, _, hr⟩ := hmem
      rw [← hr] at h2
      exact Option.noConfusion h2

/-- C15: for every `n > 0`, `Tracklist(n)` calls `RecentTracks` first; when that
call and the seed derivation succeed it calls `Recommendations` with the derived
seeds in the state `RecentTracks` left; when that succeeds too it calls
`TopArtists` in the state `Recommendations` left. It stops at the first step
that fails and returns the nil slice with that step's error wrapped under the
step's phrase, after exactly the calls made so far, so a failed recommendation
request is reported without `TopArtists` being called, whatever it would have
returned, and a failed top-artists fetch is reported only after the recommender
was called and succeeded. When all steps succeed the trace is the three calls in
that order and the error is nil. In every case each collaborator is called at
most once, every call but the last returned a nil error, and the returned error
has the same `Cause` as the error of the failed call. -/
theorem Tracklist_call_order {σ : Type} (serv : MusicService σ) (rc : Recommender σ)
    (n : Int) (hn : 0 < n) (s : σ) :
    (∀ e, (serv.RecentTracks s).1.2 = some e →
      generator.Tracklist ⟨some serv, some rc⟩ n s =
        some ⟨(Slice.nil, some (Error.wrap e "cannot fetch recent tracks")),
          (serv.RecentTracks s).2, [Call.RecentTracks (serv.RecentTracks s).1]⟩) ∧
    (∀ e, (serv.RecentTracks s).1.2 = none →
      trackSeeds (serv.RecentTracks s).1.1.toList Slice.nil = Except.error e →
      generator.Tracklist ⟨some serv, some rc⟩ n s =
        some ⟨(Slice.nil, some (Error.wrap e "one or more tracks are invalid seeds")),
          (serv.RecentTracks s).2, [Call.RecentTracks (serv.RecentTracks s).1]⟩) ∧
    (∀ sds e, (serv.RecentTracks s).1.2 = none →
      trackSeeds (serv.RecentTracks s).1.1.toList Slice.nil = Except.ok sds →
      (rc.Recommendations n sds (serv.RecentTracks s).2).1.2 = some e →
      generator.Tracklist ⟨some serv, some rc⟩ n s =
        some ⟨(Slice.nil, some (Error.wrap e "cannot fetch recommendations")),
          (rc.Recommendations n sds (serv.RecentTracks s).2).2,
          [Call.RecentTracks (serv.RecentTracks s).1,
            Call.Recommendations n sds
              (rc.Recommendations n sds (serv.RecentTracks s).2).1]⟩) ∧
    (∀ sds e, (serv.RecentTracks s).1.2 = none →
      trackSeeds (serv.RecentTracks s).1.1.toList Slice.nil = Except.ok sds →
      (rc.Recommendations n sds (serv.RecentTracks s).2).1.2 = none →
      (serv.TopArtists (rc.Recommendations n sds (serv.RecentTracks s).2).2).1.2 = some e →
      generator.Tracklist ⟨some serv, some rc⟩ n s =
        some ⟨(Slice.nil, some (Error.wrap e "cannot fetch top artists")),
          (serv.TopArtists (rc.Recommendations n sds (serv.RecentTracks s).2).2).2,
          [Call.RecentTracks (serv.RecentTracks s).1,
            Call.Recommendations n sds (rc.Recommendations n sds (serv.RecentTracks s).2).1,
            Call.TopArtists
              (serv.TopArtists (rc.Recommendations n sds (serv.RecentTracks s).2).2).1]⟩) ∧
    (∀ sds, (serv.RecentTracks s).1.2 = none →
      trackSeeds (serv.RecentTracks s).1.1.toList Slice.nil = Except.ok sds →
      (rc.Recommendations n sds (serv.RecentTracks s).2).1.2 = none →
      (serv.TopArtists (rc.Recommendations n sds (serv.RecentTracks s).2).2).1.2 = none →
      ∃ o, generator.Tracklist ⟨some serv, some rc⟩ n s = some o ∧
        o.ret.2 = none ∧
        o.state = (serv.TopArtists (rc.Recommendations n sds (serv.RecentTracks s).2).2).2 ∧
        o.calls = [Call.RecentTracks (serv.RecentTracks s).1,
          Call.Recommendations n sds (rc.Recommendations n sds (serv.RecentTracks s).2).1,
          Call.TopArtists
            (serv.TopArtists (rc.Recommendations n sds (serv.RecentTracks s).2).2).1]) ∧
    (∃ o, generator.Tracklist ⟨some serv, some rc⟩ n s = some o ∧
      (∃ r1 sds r2 r3, o.calls = [Call.RecentTracks r1] ∨
        o.calls = [Call.RecentTracks r1, Call.Recommendations n sds r2] ∨
        o.calls = [Call.RecentTracks r1, Call.Recommendations n sds r2,
          Call.TopArtists r3]) ∧
      (∀ c ∈ o.calls.dropLast, c.err = none) ∧
      (∀ c e, o.calls.getLast? = some c → c.err = some e →
        o.ret = (Slice.nil, some (Error.wrap e c.phrase)) ∧
        (Error.wrap e c.phrase).Cause = e.Cause) ∧
      (∀ top e, Call.TopArtists (top, some e) ∈ o.calls →
        ∃ r1 sds recs, o.calls = [Call.RecentTracks (r1, none),
          Call.Recommendations n sds (recs, none), Call.TopArtists (top, some e)]) ∧
      (∀ k sds recs e, Call.Recommendations k sds (recs, some e) ∈ o.calls →
        o.ret = (Slice.nil, some (Error.wrap e "cannot fetch recommendations")) ∧
        ∀ c ∈ o.calls, c.isTopArtists = false)) := by
  refine ⟨?_, ?_, ?_, ?_, ?_, Tracklist_trace_shape serv rc n hn s⟩
  · intro e h1
    exact Tracklist_recent_fail serv _ n hn s e h1
  · intro e h1 h2
    exact Tracklist_seed_fail serv _ n hn s e h1 h2
  · intro sds e h1 h2 h3
    exact Tracklist_rec_fail serv rc n hn s sds e h1 h2 h3
  · intro sds e h1 h2 h3 h4
    exact Tracklist_top_fail serv rc n hn s sds e h1 h2 h3 h4
  · intro sds h1 h2 h3 h4
    obtain ⟨m, f, _, _, ht⟩ := Tracklist_ok serv rc n hn s sds h1 h2 h3 h4
    exact ⟨_, ht, rfl, rfl, rfl⟩

/-- Witness of C15: three runs over the test doubles. With a failing recommender
and a catalogue whose top-artists fetch would fail too, the recommendation
error is returned after `RecentTracks` and `Recommendations` only. With a
recommender that succeeds and a failing top-artists fetch, `TopArtists` is
called third and its error is returned. With all fetches succeeding, the three
calls are made in order and the error is nil. -/
theorem Tracklist_call_order_witness :
    (0 : Int) < testTotal ∧
    testGenRecFail.Tracklist testTotal () =
      some ⟨(Slice.nil,
          some (Error.wrap testErrFetchRecommendations "cannot fetch recommendations")),
        (),
        [Call.RecentTracks (testRecent, none),
          Call.Recommendations testTotal (Slice.mk [⟨SeedKind.track, "10"⟩])
            (Slice.nil, some testErrFetchRecommendations)]⟩ ∧
    testGenTopFail.Tracklist testTotal () =
      some ⟨(Slice.nil, some (Error.wrap testErrFetchArtists "cannot fetch top artists")),
        (),
        [Call.RecentTracks (testRecent, none),
          Call.Recommendations testTotal (Slice.mk [⟨SeedKind.track, "10"⟩])
            (Slice.nil, none),
          Call.TopArtists (Slice.nil, some testErrFetchArtists)]⟩ ∧
    (∃ o, testGen.Tracklist testTotal () = some o ∧ o.ret.2 = none ∧ o.state = () ∧
      o.calls = [Call.RecentTracks (testRecent, none),
        Call.Recommendations testTotal (Slice.mk [⟨SeedKind.track, "10"⟩]) (testRecs, none),
        Call.TopArtists (testArtists, none)]) :=
  ⟨by decide,
    (Tracklist_call_order
      (fakeMusicService Slice.nil (some testErrFetchArtists) testRecent none)
      (fakeRecommender Slice.nil (some testErrFetchRecommendations)) testTotal
      (by decide) ()).2.2.1
      (Slice.mk [⟨SeedKind.track, "10"⟩]) testErrFetchRecommendations rfl (by rfl) rfl,
    (Tracklist_call_order
      (fakeMusicService Slice.nil (some testErrFetchArtists) testRecent none)
      (fakeRecommender Slice.nil none) testTotal (by decide) ()).2.2.2.1
      (Slice.mk [⟨SeedKind.track, "10"⟩]) testErrFetchArtists rfl (by rfl) rfl rfl,
    (Tracklist_call_order (fakeMusicService testArtists none testRecent none)
      (fakeRecommender testRecs none) testTotal (by decide) ()).2.2.2.2.1
      (Slice.mk [⟨SeedKind.track, "10"⟩]) rfl (by rfl) rfl rfl⟩

theorem artistSeeds_of_len_zero (top : Slice Artist) (h : top.len = 0) :
    artistSeeds top.toList Slice.nil = Except.ok Slice.nil := by
  have : top.toList = [] := List.length_eq_zero.mp h
  rw [this]
  rfl

/-- C20: for every `n > 0`, when the top-artists fetch succeeds with a list of
length zero and the recommender succeeds with a non-empty list, `Tracklist(n)`
(its earlier steps having succeeded with the seeds `sds`) and
`LimitedTracklist(n)` return with a nil error exactly the slice the recommender
returned, tracks sharing an artist included, and `LimitedTracklist` calls the
recommender with the nil seed slice. -/
theorem tracklists_no_top_artists {σ : Type} (serv : MusicService σ)
    (rc : Recommender σ) (n : Int) (hn : 0 < n) (s : σ) :
    (∀ sds : Slice Seed,
      (serv.RecentTracks s).1.2 = none →
      trackSeeds (serv.RecentTracks s).1.1.toList Slice.nil = Except.ok sds →
      (rc.Recommendations n sds (serv.RecentTracks s).2).1.2 = none →
      (rc.Recommendations n sds (serv.RecentTracks s).2).1.1.len ≠ 0 →
      (serv.TopArtists (rc.Recommendations n sds (serv.RecentTracks s).2).2).1.2 = none →
      (serv.TopArtists (rc.Recommendations n sds (serv.RecentTracks s).2).2).1.1.len = 0 →
      generator.Tracklist ⟨some serv, some rc⟩ n s =
        some ⟨((rc.Recommendations n sds (serv.RecentTracks s).2).1.1, none),
          (serv.TopArtists (rc.Recommendations n sds (serv.RecentTracks s).2).2).2,
          [Call.RecentTracks (serv.RecentTracks s).1,
            Call.Recommendations n sds (rc.Recommendations n sds (serv.RecentTracks s).2).1,
            Call.TopArtists
              (serv.TopArtists (rc.Recommendations n sds (serv.RecentTracks s).2).2).1]⟩) ∧
    ((serv.TopArtists s).1.2 = none →
      (serv.TopArtists s).1.1.len = 0 →
      (rc.Recommendations n Slice.nil (serv.TopArtists s).2).1.2 = none →
      (rc.Recommendations n Slice.nil (serv.TopArtists s).2).1.1.len ≠ 0 →
      generator.LimitedTracklist ⟨some serv, some rc⟩ n s =
        some ⟨((rc.Recommendations n Slice.nil (serv.TopArtists s).2).1.1, none),
          (rc.Recommendations n Slice.nil (serv.TopArtists s).2).2,
          [Call.TopArtists (serv.TopArtists s).1,
            Call.Recommendations n Slice.nil
              (rc.Recommendations n Slice.nil (serv.TopArtists s).2).1]⟩) := by
  constructor
  · intro sds h1 h2 h3 hrecs h4 htop
    obtain ⟨m, f, hm, hf, ht⟩ := Tracklist_ok serv rc n hn s sds h1 h2 h3 h4
    simp only [toMap, htop, if_true, Option.some.injEq] at hm
    subst hm
    simp only [filter, hrecs, if_false, GoMap.len, if_true, Option.some.injEq] at hf
    subst hf
    exact ht
  · intro h1 htop h3 hrecs
    obtain ⟨m, f, hm, hf, ht⟩ := LimitedTracklist_ok serv rc n hn s Slice.nil h1
      (artistSeeds_of_len_zero _ htop) h3
    simp only [toMap, htop, if_true, Option.some.injEq] at hm
    subst hm
    simp only [filter, hrecs, if_false, GoMap.len, if_true, Option.some.injEq] at hf
    subst hf
    exact ht

/-- Witness of C20: the catalogue returns an allocated slice without artists
and the recommender the four tracks of `testRecs`, two of them by `foo`. -/
theorem tracklists_no_top_artists_witness :
    (0 : Int) < testTotal ∧
    testGenNoTop.Tracklist testTotal () =
      some ⟨(testRecs, none), (),
        [Call.RecentTracks (testRecent, none),
          Call.Recommendations testTotal (Slice.mk [⟨SeedKind.track, "10"⟩])
            (testRecs, none),
          Call.TopArtists (Slice.mk [], none)]⟩ ∧
    testGenNoTop.LimitedTracklist testTotal () =
      some ⟨(testRecs, none), (),
        [Call.TopArtists (Slice.mk [], none),
          Call.Recommendations testTotal Slice.nil (testRecs, none)]⟩ :=
  ⟨by decide,
    (tracklists_no_top_artists (fakeMusicService (Slice.mk []) none testRecent none)
      (fakeRecommender testRecs none) testTotal (by decide) ()).1
      (Slice.mk [⟨SeedKind.track, "10"⟩]) rfl (by rfl) rfl (by decide) rfl (by decide),
    (tracklists_no_top_artists (fakeMusicService (Slice.mk []) none testRecent none)
      (fakeRecommender testRecs none) testTotal (by decide) ()).2
      rfl (by decide) rfl (by decide)⟩

/-! ## The final map of `filter`, totality and idempotence -/

theorem lookup_entriesAfter (ps : List Track) (m : Entries) (k : String) :
    (entriesAfter ps m).lookup k =
      match m.lookup k with
      | some a => some a
      | none => (ps.find? (fun t => decide (t.Artist.Name = k))).map (fun t => t.Artist) := by
  induction ps generalizing m with
  | nil => cases h : m.lookup k <;> simp [entriesAfter, h]
  | cons p ps ih =>
    cases h : m.lookup p.Artist.Name with
    | some a =>
      simp only [entriesAfter, h]
      rw [ih]
      cases hk : m.lookup k with
      | some b => rfl
      | none =>
        have hne : ¬ p.Artist.Name = k := fun e => by
          rw [e, hk] at h; exact Option.noConfusion h
        simp [List.find?_cons, hne]
    | none =>
      simp only [entriesAfter, h]
      rw [ih]
      by_cases hpk : p.Artist.Name = k
      · have h1 : (m.insert p.Artist.Name p.Artist).lookup k = some p.Artist := by
          rw [← hpk]; exact AList.lookup_insert m
        have h2 : m.lookup k = none := by rw [← hpk]; exact h
        simp [h1, h2, List.find?_cons, hpk]
      · have h1 : (m.insert p.Artist.Name p.Artist).lookup k = m.lookup k :=
          AList.lookup_insert_ne (fun e => hpk e.symm)
        simp [h1, List.find?_cons, hpk]

theorem mem_entriesAfter (ps : List Track) (m : Entries) (k : String) :
    k ∈ entriesAfter ps m ↔ k ∈ m ∨ ∃ t ∈ ps, t.Artist.Name = k := by
  rw [← AList.lookup_isSome, lookup_entriesAfter, ← AList.lookup_isSome]
  cases hk : m.lookup k with
  | some a => simp
  | none =>
    simp

theorem mem_keptFrom_name (ps : List Track) (m : Entries) (k : String) :
    (∃ t ∈ keptFrom ps m, t.Artist.Name = k) ↔
      m.lookup k = none ∧ ∃ t ∈ ps, t.Artist.Name = k := by
  constructor
  · rintro ⟨t, ht, rfl⟩
    exact ⟨keptFrom_lookup ps m t ht, t, (keptFrom_sublist ps m).subset ht, rfl⟩
  · rintro ⟨hk, t, ht, hn⟩
    have hsome : (ps.find? (fun t => decide (t.Artist.Name = k))).isSome := by
      rw [List.find?_isSome]
      exact ⟨t, ht, by simp [hn]⟩
    obtain ⟨first, hfirst⟩ := Option.isSome_iff_exists.mp hsome
    have hf := keptFrom_filter_name ps m k
    rw [hk, hfirst] at hf
    have hmem : first ∈ (keptFrom ps m).filter (fun t => decide (t.Artist.Name = k)) := by
      rw [hf]; simp
    rw [List.mem_filter] at hmem
    exact ⟨first, hmem.1, by simpa using hmem.2⟩

theorem keptFrom_fixed (ks : List Track) (m : Entries)
    (h1 : ∀ t ∈ ks, m.lookup t.Artist.Name = none)
    (h2 : (ks.map (fun t => t.Artist.Name)).Nodup) : keptFrom ks m = ks := by
  induction ks generalizing m with
  | nil => rfl
  | cons p ps ih =>
    have hp := h1 p (List.mem_cons_self _ _)
    simp only [keptFrom, hp]
    rw [List.map_cons, List.nodup_cons] at h2
    congr 1
    apply ih _ _ h2.2
    intro t ht
    rw [AList.lookup_insert_eq_none]
    refine ⟨?_, h1 t (List.mem_cons_of_mem _ ht)⟩
    intro e
    exact h2.1 (List.mem_map.mpr ⟨t, ht, e⟩)

/-- C16: for every non-empty candidate list and every non-empty exclusion set,
`filter` returns, and the keys of the updated exclusion set are the initial keys
together with the artist names of the returned tracks, which is also the
initial keys together with the artist names of all candidates; every initial
entry keeps its value, and a name that was not a key maps to the artist of the
first candidate carrying it. -/
theorem filter_final_map (prev : Slice Track) (rmv : GoMap)
    (h1 : prev.len ≠ 0) (h2 : rmv.len ≠ 0) :
    ∃ out rmv1, filter prev rmv = some (out, rmv1) ∧
      (∀ k, k ∈ rmv1.keys ↔ (k ∈ rmv.keys ∨ ∃ t ∈ out.toList, t.Artist.Name = k)) ∧
      (∀ k, k ∈ rmv1.keys ↔ (k ∈ rmv.keys ∨ ∃ t ∈ prev.toList, t.Artist.Name = k)) ∧
      (∀ k a, rmv.get k = some a → rmv1.get k = some a) ∧
      (∀ k first, rmv.get k = none →
        prev.toList.find? (fun t => decide (t.Artist.Name = k)) = some first →
        rmv1.get k = some first.Artist) := by
  rcases filter_cases prev rmv with ⟨h, _⟩ | ⟨_, h0, _⟩ | ⟨_, m, rfl, _, h⟩
  · exact absurd h h1
  · exact absurd h0 h2
  · have hnil : (Slice.nil : Slice Track).toList = [] := rfl
    refine ⟨_, _, h, ?_, ?_, ?_, ?_⟩
    · intro k
      simp only [GoMap.keys]
      rw [grow_toList, hnil, List.nil_append, ← AList.mem_keys, ← AList.mem_keys,
        mem_entriesAfter, mem_keptFrom_name]
      constructor
      · rintro (hk | hk)
        · exact Or.inl hk
        · by_cases hm : k ∈ m
          · exact Or.inl hm
          · exact Or.inr ⟨AList.lookup_eq_none.mpr hm, hk⟩
      · rintro (hk | ⟨_, hk⟩)
        · exact Or.inl hk
        · exact Or.inr hk
    · intro k
      simp only [GoMap.keys]
      rw [← AList.mem_keys, ← AList.mem_keys, mem_entriesAfter]
    · intro k a hk
      simp only [GoMap.get] at hk ⊢
      rw [lookup_entriesAfter, hk]
    · intro k first hk hfirst
      simp only [GoMap.get] at hk ⊢
      rw [lookup_entriesAfter, hk, hfirst]
      rfl

/-- Witness of C16: the candidates of `TestFilter` against the map holding only
`garply`. -/
theorem filter_final_map_witness :
    testTracks.len ≠ 0 ∧ garplyMap.len ≠ 0 ∧
    ∃ out rmv1, filter testTracks garplyMap = some (out, rmv1) ∧
      (∀ k, k ∈ rmv1.keys ↔
        (k ∈ garplyMap.keys ∨ ∃ t ∈ out.toList, t.Artist.Name = k)) ∧
      (∀ k, k ∈ rmv1.keys ↔
        (k ∈ garplyMap.keys ∨ ∃ t ∈ testTracks.toList, t.Artist.Name = k)) ∧
      (∀ k a, garplyMap.get k = some a → rmv1.get k = some a) ∧
      (∀ k first, garplyMap.get k = none →
        testTracks.toList.find? (fun t => decide (t.Artist.Name = k)) = some first →
        rmv1.get k = some first.Artist) :=
  ⟨by decide, by decide, filter_final_map testTracks garplyMap (by decide) (by decide)⟩

/-- C18: `filter` returns for every candidate slice and every map, nil ones
included, so it never faults; when the map has no entries (nil, or allocated
and empty) it is handed back untouched, so the store into the map is reached
only with a map that holds an entry. The loop alone, started on the nil map with
a candidate, would fault. -/
theorem filter_total :
    (∀ (prev : Slice Track) (rmv : GoMap), ∃ out rmv1, filter prev rmv = some (out, rmv1)) ∧
    (∀ (prev : Slice Track) (rmv : GoMap), rmv.len = 0 →
      ∃ out, filter prev rmv = some (out, rmv)) ∧
    (∀ (p : Track) (ps : List Track) (curr : Slice Track),
      filterLoop (p :: ps) curr GoMap.nil = none) := by
  refine ⟨?_, ?_, ?_⟩
  · intro prev rmv
    obtain ⟨out, rmv1, hf, _⟩ := filter_returns prev rmv
    exact ⟨out, rmv1, hf⟩
  · intro prev rmv h0
    rcases filter_cases prev rmv with ⟨_, h⟩ | ⟨_, _, h⟩ | ⟨_, m, _, hne, _⟩
    · exact ⟨_, h⟩
    · exact ⟨_, h⟩
    · exact absurd h0 hne
  · intro p ps curr
    simp [filterLoop, GoMap.get, GoMap.set]

/-- C19: for every candidate slice `c` and every exclusion set `e`, filtering
the output of `filter(c, e)` again against the same initial `e` returns that
output unchanged. -/
theorem filter_idempotent (prev : Slice Track) (rmv : GoMap) :
    ∃ out rmv1 rmv2, filter prev rmv = some (out, rmv1) ∧
      filter out rmv = some (out, rmv2) := by
  rcases filter_cases prev rmv with ⟨_, h⟩ | ⟨_, _, h⟩ | ⟨_, m, rfl, hne, h⟩
  · exact ⟨_, _, rmv, h, by simp [filter, Slice.len, Slice.toList]⟩
  · exact ⟨_, _, _, h, h⟩
  · refine ⟨_, _, GoMap.alloc (entriesAfter (keptFrom prev.toList m) m), h, ?_⟩
    by_cases hk : keptFrom prev.toList m = []
    · have hg : grow Slice.nil (keptFrom prev.toList m) = Slice.nil := by simp [grow, hk]
      rw [hg, hk]
      simp [filter, Slice.len, Slice.toList, entriesAfter]
    · have hlen : (grow Slice.nil (keptFrom prev.toList m)).len ≠ 0 := by
        simp only [Slice.len, grow_toList]
        simpa [Slice.toList] using hk
      simp only [filter, hlen, hne, if_false]
      rw [filterLoop_alloc, grow_toList]
      have hnil : (Slice.nil : Slice Track).toList = [] := rfl
      rw [hnil, List.nil_append,
        keptFrom_fixed _ m (keptFrom_lookup prev.toList m) (keptFrom_nodup prev.toList m)]

/-! ## The adapter -/

end Refind
